import Mathlib

/-!
Verification development for the GolfAnalyzer swing-analysis core.

The Python source is shallowly embedded: pure arithmetic over floats is
idealised as exact arithmetic (ℚ where every step is rational, ℝ where the
code calls sqrt / trig), fallible code (operations that can raise
TypeError / NameError / IndexError) is embedded in an Except monad, and
external SciPy routines (the Savitzky-Golay filter) that no claim depends
on are taken as function parameters.  Sections follow the source files:

* reference/scoring.py        — smooth score and the aggregate scorer
* pose/swing_detection.py     — heuristic phase detection
* pose/kinematics.py          — SMPL forward kinematics (and the offset
                                extraction that is only imported, modelled
                                from the spec)
* pose/refinement/plane_of_swing.py — the analytic two-bone IK solver
* pose/smoothing.py           — quaternion sequence smoothing
* pose/metrics.py             — the metrics calculator
-/

namespace GolfAnalyzer

/-! ### Data model shared by several components (app/schemas.py) -/

/-- SwingPhases (app/schemas.py): four frame indices, plain Python ints. -/
structure SwingPhases where
  address_frame : ℤ
  top_frame : ℤ
  impact_frame : ℤ
  finish_frame : ℤ
deriving DecidableEq

/-! ### reference/scoring.py -/

namespace Scoring

/-- MetricTarget (reference/reference_profiles.py): target, tolerances and
default weight of one metric. -/
structure MetricTarget where
  target : ℚ
  inner_tol : ℚ
  outer_tol : ℚ
  weight : ℚ := 1
deriving DecidableEq

/-- ReferenceProfile (reference/reference_profiles.py).  The Python dict of
targets is embedded as an association list in iteration (insertion) order. -/
structure ReferenceProfile where
  name : String
  view : String
  club_type : String
  targets : List (String × MetricTarget)

/-- MetricScore (app/schemas.py). -/
structure MetricScore where
  value : ℚ
  score : String
  target_min : ℚ
  target_max : ℚ
  weight : ℚ
deriving DecidableEq

/-- SwingScores (app/schemas.py): the Python dict of per-metric scores is an
association list here. -/
structure SwingScores where
  overall_score : ℤ
  metric_scores : List (String × MetricScore)
deriving DecidableEq

/-- Truncation of Python float→int conversion: toward zero. -/
def pyInt (q : ℚ) : ℤ := if q < 0 then -⌊-q⌋ else ⌊q⌋

/-- DTL_WEIGHTS table (reference/scoring.py lines 7-31). -/
def DTL_WEIGHTS : List (String × ℚ) :=
  [("tempo_ratio", 3/2),
   ("backswing_duration_ms", 0),
   ("downswing_duration_ms", 0),
   ("chest_turn_top_deg", 4/5),
   ("pelvis_turn_top_deg", 4/5),
   ("x_factor_top_deg", 1),
   ("spine_angle_address_deg", 4/5),
   ("spine_angle_impact_deg", 4/5),
   ("lead_arm_address_deg", 7/10),
   ("lead_arm_top_deg", 4/5),
   ("lead_arm_impact_deg", 0),
   ("trail_elbow_address_deg", 3/5),
   ("trail_elbow_top_deg", 1),
   ("trail_elbow_impact_deg", 4/5),
   ("knee_flex_left_address_deg", 7/10),
   ("knee_flex_right_address_deg", 7/10),
   ("head_sway_range", 1),
   ("early_extension_amount", 6/5),
   ("swing_path_index", 1),
   ("hand_height_at_top_index", 1),
   ("hand_width_at_top_index", 1),
   ("head_drop_cm", 1),
   ("head_rise_cm", 6/5)]

/-- FACE_ON_WEIGHTS table (reference/scoring.py lines 33-52). -/
def FACE_ON_WEIGHTS : List (String × ℚ) :=
  [("tempo_ratio", 3/2),
   ("chest_turn_top_deg", 4/5),
   ("pelvis_turn_top_deg", 4/5),
   ("x_factor_top_deg", 1),
   ("spine_angle_address_deg", 13/10),
   ("spine_angle_impact_deg", 13/10),
   ("lead_arm_impact_deg", 13/10),
   ("trail_elbow_top_deg", 13/10),
   ("knee_flex_left_address_deg", 1),
   ("knee_flex_right_address_deg", 1),
   ("head_sway_range", 7/5),
   ("early_extension_amount", 7/5),
   ("swing_path_index", 0),
   ("hand_height_at_top_index", 0),
   ("hand_width_at_top_index", 0),
   ("head_drop_cm", 6/5),
   ("head_rise_cm", 6/5)]

/-- calculate_smooth_score (reference/scoring.py lines 54-73). -/
def calculate_smooth_score (value target inner_tol outer_tol : ℚ) : ℚ :=
  let diff := |value - target|
  if diff ≤ inner_tol then 100
  else if diff ≥ outer_tol then 0
  else
    let span := outer_tol - inner_tol
    if span ≤ 0 then 0
    else 100 * (1 - (diff - inner_tol) / span)

/-- Color banding of a numeric score (reference/scoring.py lines 101-108). -/
def scoreColor (numericScore : ℚ) : String :=
  if numericScore ≥ 70 then "green"
  else if numericScore ≥ 40 then "yellow"
  else "red"

/-- Effective weight of one metric: the view-specific table entry when
present, else the profile target's default (reference/scoring.py line 112). -/
def effWeight (weightMap : List (String × ℚ)) (key : String) (t : MetricTarget) : ℚ :=
  (List.lookup key weightMap).getD t.weight

/-- One iteration of the Scorer.build_scores loop (reference/scoring.py
lines 86-128): state is (total_weighted_score, total_weight, metric_scores). -/
def buildScoresStep (metrics : String → Option ℚ) (weightMap : List (String × ℚ))
    (st : ℚ × ℚ × List (String × MetricScore)) (kt : String × MetricTarget) :
    ℚ × ℚ × List (String × MetricScore) :=
  match metrics kt.1 with
  | none => st
  | some val =>
      let t := kt.2
      let numericScore := calculate_smooth_score val t.target t.inner_tol t.outer_tol
      let w := effWeight weightMap kt.1 t
      let ms := st.2.2 ++
        [(kt.1, ⟨val, scoreColor numericScore, t.target - t.inner_tol, t.target + t.inner_tol, w⟩)]
      if w > 0 then (st.1 + numericScore * w, st.2.1 + w, ms)
      else (st.1, st.2.1, ms)

/-- Weight-map selection (reference/scoring.py line 84). -/
def viewWeights (view : String) : List (String × ℚ) :=
  if view = "face_on" then FACE_ON_WEIGHTS else DTL_WEIGHTS

/-- Scorer.build_scores (reference/scoring.py lines 76-137). -/
def build_scores (metrics : String → Option ℚ) (ref : ReferenceProfile) : SwingScores :=
  let weightMap := viewWeights ref.view
  let st := ref.targets.foldl (buildScoresStep metrics weightMap) (0, 0, [])
  { overall_score := if st.2.1 > 0 then pyInt (st.1 / st.2.1) else 0,
    metric_scores := st.2.2 }

/-- Predicate: a profile entry is included in the aggregate (value present
and effective weight positive).  Used to state the aggregate formula. -/
def included (metrics : String → Option ℚ) (weightMap : List (String × ℚ))
    (kt : String × MetricTarget) : Prop :=
  (metrics kt.1).isSome ∧ 0 < effWeight weightMap kt.1 kt.2

instance (metrics : String → Option ℚ) (weightMap : List (String × ℚ))
    (kt : String × MetricTarget) : Decidable (included metrics weightMap kt) :=
  inferInstanceAs (Decidable (_ ∧ _))

/-- Numeric score of one profile entry against the metrics table. -/
def entryScore (metrics : String → Option ℚ) (kt : String × MetricTarget) : ℚ :=
  calculate_smooth_score ((metrics kt.1).getD 0) kt.2.target kt.2.inner_tol kt.2.outer_tol

/-- Weighted-score sum over the included profile entries. -/
def weightedSum (metrics : String → Option ℚ) (weightMap : List (String × ℚ))
    (targets : List (String × MetricTarget)) : ℚ :=
  ((targets.filter (fun kt => decide (included metrics weightMap kt))).map
    (fun kt => entryScore metrics kt * effWeight weightMap kt.1 kt.2)).sum

/-- Weight sum over the included profile entries. -/
def weightSum (metrics : String → Option ℚ) (weightMap : List (String × ℚ))
    (targets : List (String × MetricTarget)) : ℚ :=
  ((targets.filter (fun kt => decide (included metrics weightMap kt))).map
    (fun kt => effWeight weightMap kt.1 kt.2)).sum

end Scoring

/-! ### pose/swing_detection.py

Wrist heights are normalised floats; they are idealised as ℚ so that every
branch of the heuristic is decidable.  The external scipy savgol_filter is a
function parameter (no claim depends on its coefficients); np.gradient is
embedded exactly. -/

namespace SwingDetect

/-- Landmark of a FramePose (pose/types.py Point3D), rational coordinates. -/
structure Landmark where
  x : ℚ
  y : ℚ
  z : ℚ
  visibility : ℚ
deriving DecidableEq

/-- FramePose (pose/types.py), the fields phase detection reads. -/
structure FramePose where
  frame_index : ℤ
  timestamp_ms : ℚ
  landmarks : List Landmark
deriving DecidableEq

/-- Truncation of Python float→int conversion (toward zero) on ℚ. -/
def pyTrunc (q : ℚ) : ℤ := if q < 0 then -⌊-q⌋ else ⌊q⌋

/-- np.gradient: central differences inside, one-sided at the ends. -/
def npGradient (ys : List ℚ) : List ℚ :=
  let n := ys.length
  (List.range n).map (fun i =>
    if n < 2 then 0
    else if i = 0 then ys.getD 1 0 - ys.getD 0 0
    else if i = n - 1 then ys.getD (n - 1) 0 - ys.getD (n - 2) 0
    else (ys.getD (i + 1) 0 - ys.getD (i - 1) 0) / 2)

/-- SwingDetector._smooth_savgol (pose/swing_detection.py lines 17-29):
length guard around the external scipy savgol_filter, which is the
parameter f (the window_size and poly_order are fixed by f's choice). -/
def smoothSavgolWith (f : List ℚ → List ℚ) (window : ℕ) (data : List ℚ) : List ℚ :=
  if data.length < window then data else f data

/-- Index of the first minimum of a list (np.argmin), 0 on the empty list. -/
def argminQ (l : List ℚ) : ℕ :=
  (l.foldl (fun (st : ℕ × ℕ × Option ℚ) v =>
    match st.2.2 with
    | none => (st.2.1, st.2.1 + 1, some v)
    | some c => if v < c then (st.2.1, st.2.1 + 1, some v) else (st.1, st.2.1 + 1, some c))
    (0, 0, none)).1

/-- Index of the first maximum of a list (np.argmax), 0 on the empty list. -/
def argmaxQ (l : List ℚ) : ℕ :=
  (l.foldl (fun (st : ℕ × ℕ × Option ℚ) v =>
    match st.2.2 with
    | none => (st.2.1, st.2.1 + 1, some v)
    | some c => if v > c then (st.2.1, st.2.1 + 1, some v) else (st.1, st.2.1 + 1, some c))
    (0, 0, none)).1

/-- Wrist height extraction (pose/swing_detection.py lines 102-112): mean of
landmarks 15 and 16 when present, else the previous value (0.5 at start). -/
def wristYs (poses : List FramePose) : List ℚ :=
  poses.foldl (fun acc pose =>
    if 16 < pose.landmarks.length then
      acc ++ [((pose.landmarks.getD 15 ⟨0, 0, 0, 0⟩).y +
               (pose.landmarks.getD 16 ⟨0, 0, 0, 0⟩).y) / 2]
    else acc ++ [acc.getLast?.getD (1/2)]) []

/-- Conditions of the top-of-backswing scan at index i (pose/swing_detection.py
lines 133-141): rise from frame 0 strictly above the absolute threshold 0.08,
velocity zero-crossing from ≤ 0 to > 0, and the smoothed value below the
values three frames to each side. -/
def topCond (smoothYs velocity : List ℚ) (i : ℕ) : Prop :=
  smoothYs.getD 0 0 - smoothYs.getD i 0 > 8/100 ∧
  velocity.getD (i - 1) 0 ≤ 0 ∧ velocity.getD i 0 > 0 ∧
  smoothYs.getD i 0 < smoothYs.getD (i - 3) 0 ∧
  smoothYs.getD i 0 < smoothYs.getD (i + 3) 0

instance (smoothYs velocity : List ℚ) (i : ℕ) :
    Decidable (topCond smoothYs velocity i) :=
  inferInstanceAs (Decidable (_ ∧ _))

/-- Top-of-backswing detection (pose/swing_detection.py lines 125-147): first
index in range(5, n-5) passing topCond, else the argmin of the first 60%. -/
def detectTopFrame (smoothYs velocity : List ℚ) (n : ℕ) : ℕ :=
  let top0 :=
    match (List.range' 5 (n - 10)).find? (fun i => decide (topCond smoothYs velocity i)) with
    | some i => i
    | none => 0
  if top0 = 0 then
    let searchEnd := pyTrunc ((n : ℚ) * (6/10))
    if searchEnd > 0 then argminQ (smoothYs.take searchEnd.toNat) else 0
  else top0

/-- Address detection (pose/swing_detection.py lines 149-158): index of the
maximum smoothed height within two seconds before the top. -/
def detectAddressFrame (smoothYs : List ℚ) (topFrame : ℕ) (fps : ℚ) : ℕ :=
  let searchStart := (max 0 ((topFrame : ℤ) - pyTrunc (fps * 2))).toNat
  ((List.range' searchStart (topFrame - searchStart)).foldl
    (fun (st : ℕ × ℚ) i =>
      if smoothYs.getD i 0 > st.2 then (i, smoothYs.getD i 0) else st)
    (0, -1)).1

/-- Impact detection (pose/swing_detection.py lines 160-203): position-based
maximum with an early exit, cross-validated against the velocity-peak frame,
then the off-by-one correction. -/
def detectImpactFrame (smoothYs smoothVelocity : List ℚ) (topFrame : ℕ) (fps : ℚ)
    (n : ℕ) : ℕ :=
  let searchStart := topFrame + 3
  let searchEnd0 : ℤ := min ((n : ℤ) - 5) ((topFrame : ℤ) + pyTrunc (fps * (1/2)))
  let searchEnd : ℤ :=
    if searchEnd0 ≤ (searchStart : ℤ) then min ((n : ℤ) - 1) ((searchStart : ℤ) + 15)
    else searchEnd0
  let len := (searchEnd - searchStart).toNat
  let scan := (List.range' searchStart len).foldl
    (fun (st : ℚ × ℕ × Bool) i =>
      if st.2.2 then st
      else if smoothYs.getD i 0 > st.1 then (smoothYs.getD i 0, i, false)
      else if st.1 > 0 ∧ st.1 - smoothYs.getD i 0 > 4/100 then (st.1, st.2.1, true)
      else st)
    (-1, searchStart, false)
  let impactByPosition := scan.2.1
  let velocityWindow := (smoothVelocity.drop searchStart).take len
  let impactByVelocity :=
    if velocityWindow.length > 0 then searchStart + argmaxQ velocityWindow
    else impactByPosition
  let impact0 :=
    if ((impactByPosition : ℤ) - impactByVelocity).natAbs ≤ 3 then impactByPosition
    else (7 * impactByPosition + 3 * impactByVelocity) / 10
  if impact0 + 1 < n ∧ smoothYs.getD (impact0 + 1) 0 ≥ smoothYs.getD impact0 0 then
    impact0 + 1
  else impact0

/-- Finish detection (pose/swing_detection.py lines 205-213): minimum smoothed
height strictly after impact+2; stays at n-1 when nothing beats 1.0. -/
def detectFinishFrame (smoothYs : List ℚ) (impactFrame : ℕ) (n : ℕ) : ℕ :=
  ((List.range' (impactFrame + 3) (n - (impactFrame + 3))).foldl
    (fun (st : ℕ × ℚ) i =>
      if smoothYs.getD i 0 < st.2 then (i, smoothYs.getD i 0) else st)
    (n - 1, 1)).1

/-- Safety pass and clamping (pose/swing_detection.py lines 215-235). -/
def safetyClampPhases (address top impact finish : ℤ) (n : ℕ) : SwingPhases :=
  let top1 := if top ≤ address then address + 5 else top
  let impact1 := if impact ≤ top1 then top1 + 5 else impact
  let finish1 := if finish ≤ impact1 then impact1 + 5 else finish
  let finish2 := min finish1 ((n : ℤ) - 1)
  let impact2 := min impact1 (finish2 - 1)
  let top2 := min top1 (impact2 - 1)
  let address2 := min address (top2 - 1)
  ⟨max 0 address2, max 0 top2, max 0 impact2, max 0 finish2⟩

/-- SwingDetector.detect_swing_phases (pose/swing_detection.py lines 43-235)
on the default heuristic path (hybrik_frames is None, as the spec's
PhaseDetector has no such input).  f7 and f5 stand for the external
savgol_filter with the two window/order choices of the source. -/
def detect_swing_phases (f7 f5 : List ℚ → List ℚ) (poses : List FramePose)
    (fps : ℚ) : SwingPhases :=
  if poses = [] then ⟨0, 0, 0, 0⟩
  else
    let wys := wristYs poses
    let n := poses.length
    if n < 10 then ⟨0, 0, 0, 0⟩
    else
      let smoothYs := smoothSavgolWith f7 7 wys
      let velocity := npGradient smoothYs
      let smoothVelocity := smoothSavgolWith f5 5 velocity
      let top := detectTopFrame smoothYs velocity n
      let address := detectAddressFrame smoothYs top fps
      let impact := detectImpactFrame smoothYs smoothVelocity top fps n
      let finish := detectFinishFrame smoothYs impact n
      safetyClampPhases address top impact finish n

/-- Largest element of a list of rationals (np.max), headD 0 when empty. -/
def listMaxQ (l : List ℚ) : ℚ := l.foldl max (l.headD 0)

/-- Smallest element of a list of rationals (np.min), headD 0 when empty. -/
def listMinQ (l : List ℚ) : ℚ := l.foldl min (l.headD 0)

/-- Top-of-backswing condition as the spec sentence words it: the rise from
frame 0 is at least 8% of the observed range of the smoothed signal (the
other two conditions as in the source).  Stated for comparison with topCond,
whose threshold is the absolute constant 0.08. -/
def specTopCond (smoothYs velocity : List ℚ) (i : ℕ) : Prop :=
  smoothYs.getD 0 0 - smoothYs.getD i 0 ≥ (8/100) * (listMaxQ smoothYs - listMinQ smoothYs) ∧
  velocity.getD (i - 1) 0 ≤ 0 ∧ velocity.getD i 0 > 0 ∧
  smoothYs.getD i 0 < smoothYs.getD (i - 3) 0 ∧
  smoothYs.getD i 0 < smoothYs.getD (i + 3) 0

instance (smoothYs velocity : List ℚ) (i : ℕ) :
    Decidable (specTopCond smoothYs velocity i) :=
  inferInstanceAs (Decidable (_ ∧ _))

/-- Top-of-backswing detection as the spec sentence words it: identical to
detectTopFrame except that the rise threshold is 8% of the observed range of
the smoothed signal instead of the absolute 0.08. -/
def specTopFrame (smoothYs velocity : List ℚ) (n : ℕ) : ℕ :=
  let top0 :=
    match (List.range' 5 (n - 10)).find? (fun i => decide (specTopCond smoothYs velocity i)) with
    | some i => i
    | none => 0
  if top0 = 0 then
    let searchEnd := pyTrunc ((n : ℚ) * (6/10))
    if searchEnd > 0 then argminQ (smoothYs.take searchEnd.toNat) else 0
  else top0

/-- Concrete smoothed signal used to compare detectTopFrame with the
spec-worded specTopFrame: its observed range is 2.4 (so 8% of range is
0.192), while the rise at index 5 is exactly 0.1. -/
def c8sig : List ℚ := [1, 1/2, 97/100, 19/20, 19/20, 9/10, 24/25, 1, 1, 1, 1, 29/10]

end SwingDetect

/-! ### pose/kinematics.py

Joint positions and rotation matrices are exact here (ℚ): forward kinematics
is plain matrix arithmetic.  calculate_offsets_from_pose is imported by
pose/refinement/plane_of_swing.py from pose.kinematics but is not defined in
the repository's files, so it is modelled from the spec below. -/

namespace Kinematics

/-- Rational 3-vector. -/
abbrev Vec3 := Fin 3 → ℚ

/-- Rational 3×3 matrix. -/
abbrev Mat3 := Matrix (Fin 3) (Fin 3) ℚ

/-- SMPL_PARENTS (pose/kinematics.py lines 7-32): parent index of each of
the 24 joints, -1 for the root. -/
def SMPL_PARENTS : List ℤ :=
  [-1, 0, 0, 0, 1, 2, 3, 4, 5, 6, 7, 8, 9, 9, 9, 12, 13, 14, 16, 17, 18, 19, 20, 21]

/-- Parent of a non-root joint as a natural number (only meaningful for
1 ≤ i < 24; every parent index there is smaller than its child). -/
def parentIdx (i : ℕ) : ℕ := (SMPL_PARENTS.getD i (-1)).toNat

/-- Global rotation of each joint: parent global rotation times the local
rotation, the root using its own rotation (pose/kinematics.py lines 95-102;
the identical top-down reconstruction get_global_rotations appears in
pose/refinement/plane_of_swing.py lines 147-162). -/
def globalRot (R : ℕ → Mat3) : ℕ → Mat3
  | 0 => R 0
  | i + 1 => globalRot R (parentIdx (i + 1)) * R (i + 1)
termination_by i => i
decreasing_by
  have key : ∀ j, j < 24 → 0 < j → parentIdx j < j := by decide
  rcases Nat.lt_or_ge (i + 1) 24 with h | h
  · exact key _ h (Nat.succ_pos i)
  · have h24 : SMPL_PARENTS.length ≤ i + 1 := by simp [SMPL_PARENTS]; omega
    have hd : SMPL_PARENTS.getD (i + 1) (-1) = -1 := List.getD_eq_default _ _ h24
    unfold parentIdx
    rw [hd]
    omega

/-- Global position of each joint: parent global position plus the parent
global rotation applied to the local offset, the root sitting at
root_position (pose/kinematics.py lines 94-111). -/
def globalPos (R : ℕ → Mat3) (root : Vec3) (O : ℕ → Vec3) : ℕ → Vec3
  | 0 => root
  | i + 1 =>
      globalPos R root O (parentIdx (i + 1)) +
        (globalRot R (parentIdx (i + 1))).mulVec (O (i + 1))
termination_by i => i
decreasing_by
  have key : ∀ j, j < 24 → 0 < j → parentIdx j < j := by decide
  rcases Nat.lt_or_ge (i + 1) 24 with h | h
  · exact key _ h (Nat.succ_pos i)
  · have h24 : SMPL_PARENTS.length ≤ i + 1 := by simp [SMPL_PARENTS]; omega
    have hd : SMPL_PARENTS.getD (i + 1) (-1) = -1 := List.getD_eq_default _ _ h24
    unfold parentIdx
    rw [hd]
    omega

/-- forward_kinematics (pose/kinematics.py lines 64-113): the list of the 24
global joint positions. -/
def forward_kinematics (R : ℕ → Mat3) (root : Vec3) (O : ℕ → Vec3) : List Vec3 :=
  (List.range 24).map (globalPos R root O)

/-- Explicit 3×3 inverse: the adjugate divided by the determinant (the exact
inverse np.linalg would compute; junk when the determinant is 0). -/
def inv3 (A : Mat3) : Mat3 := A.det⁻¹ • A.adjugate

/-- Modelled from the spec: calculate_offsets_from_pose is imported from
pose.kinematics (pose/refinement/plane_of_swing.py line 3) but no definition
exists in the repository's files.  Spec 4.3: "exact inverse — first
reconstructs global rotations from local ones top-down, then for each joint
computes offset = inverse(parent_global_rotation) × (joint_pos -
parent_pos)".  The root has no parent; its offset entry is 0, the SMPL
convention used everywhere else in the file (SMPL_MEAN_OFFSETS row 0 and the
np.zeros initialisation of estimate_skeleton_offsets). -/
def calculate_offsets_from_pose (observed : List Vec3) (R : ℕ → Mat3) : List Vec3 :=
  (List.range 24).map (fun i =>
    if i = 0 then 0
    else (inv3 (globalRot R (parentIdx i))).mulVec
      (observed.getD i 0 - observed.getD (parentIdx i) 0))

end Kinematics

/-! ### pose/refinement/plane_of_swing.py — the two-bone IK solver

Positions are real 3-vectors; np.linalg.norm, arccos, cos and sin are the
real functions. -/

namespace IK

/-- Real 3-vector (a row of an np array). -/
abbrev V3 := Fin 3 → ℝ

noncomputable section

/-- Dot product of 3-vectors (np.dot). -/
def dot3 (v w : V3) : ℝ := v 0 * w 0 + v 1 * w 1 + v 2 * w 2

/-- Cross product of 3-vectors (np.cross). -/
def cross3 (v w : V3) : V3 :=
  ![v 1 * w 2 - v 2 * w 1, v 2 * w 0 - v 0 * w 2, v 0 * w 1 - v 1 * w 0]

/-- Euclidean norm of a 3-vector (np.linalg.norm). -/
def norm3 (v : V3) : ℝ := Real.sqrt (dot3 v v)

/-- solve_two_bone_ik (pose/refinement/plane_of_swing.py lines 34-118). -/
def solve_two_bone_ik (root_pos effector_pos target_pos joint_pos : V3)
    (epsilon : ℝ := 1/1000000) : V3 × V3 :=
  let L1 := norm3 (joint_pos - root_pos)
  let L2 := norm3 (effector_pos - joint_pos)
  let target_vec := target_pos - root_pos
  let target_dist := norm3 target_vec
  if target_dist > L1 + L2 - epsilon then
    let direction := (target_dist + epsilon)⁻¹ • target_vec
    let new_joint := root_pos + L1 • direction
    let new_effector := new_joint + L2 • direction
    (new_joint, new_effector)
  else if target_dist < |L1 - L2| + epsilon then
    (joint_pos, effector_pos)
  else
    let cos_alpha0 := (L1 ^ 2 + target_dist ^ 2 - L2 ^ 2) / (2 * L1 * target_dist)
    let cos_alpha := max (-1) (min 1 cos_alpha0)
    let alpha := Real.arccos cos_alpha
    let arm_vec_1 := joint_pos - root_pos
    let arm_vec_2 := effector_pos - joint_pos
    let arm_plane_normal0 := cross3 arm_vec_1 arm_vec_2
    let arm_plane_normal1 :=
      if norm3 arm_plane_normal0 < epsilon then
        let idx_up : V3 :=
          if |dot3 (target_dist⁻¹ • target_vec) ![0, 1, 0]| > 9/10 then ![1, 0, 0]
          else ![0, 1, 0]
        cross3 target_vec idx_up
      else arm_plane_normal0
    let k := (norm3 arm_plane_normal1 + epsilon)⁻¹ • arm_plane_normal1
    let v_base := L1 • ((target_dist + epsilon)⁻¹ • target_vec)
    let theta := alpha
    let v_rot := Real.cos theta • v_base + Real.sin theta • cross3 k v_base +
      ((1 - Real.cos theta) * dot3 k v_base) • k
    (root_pos + v_rot, target_pos)

end

end IK

/-! ### pose/smoothing.py — quaternion sequence smoothing

smooth_pose_sequence processes each of the 24 joints independently: convert
the joint's per-frame rotation matrices to quaternions (the external scipy
Rotation), flip signs for hemisphere continuity, Gaussian-filter each of the
4 components along time (scipy gaussian_filter1d, sigma 2.0 — the default
the function declares — radius int(truncate·sigma + 0.5) = 8, nearest-mode
edge handling), renormalise, and convert back.  The embedding below is the
per-joint pipeline between the two conversions, on quaternions as real
4-vectors. -/

namespace Smoothing

/-- Quaternion as a real 4-vector (scipy as_quat layout). -/
abbrev Vec4 := Fin 4 → ℝ

noncomputable section

/-- Dot product of quaternions (np.dot). -/
def dot4 (u v : Vec4) : ℝ := u 0 * v 0 + u 1 * v 1 + u 2 * v 2 + u 3 * v 3

/-- Kernel offsets of gaussian_filter1d at sigma 2.0, truncate 4.0:
radius int(4.0·2.0 + 0.5) = 8, offsets -8..8. -/
def kernelOffsets : List ℤ := (List.range 17).map (fun k => (k : ℤ) - 8)

/-- Unnormalised Gaussian kernel weight exp(-j²/(2σ²)) at sigma 2.0. -/
def gaussWeight (j : ℤ) : ℝ := Real.exp (-(j : ℝ) ^ 2 / 8)

/-- Kernel normalisation constant. -/
def gaussSum : ℝ := (kernelOffsets.map gaussWeight).sum

/-- Nearest-mode index clamping of gaussian_filter1d. -/
def clampIdx (n : ℕ) (i : ℤ) : ℕ := (min (max i 0) ((n : ℤ) - 1)).toNat

/-- One output sample of gaussian_filter1d along the time axis, per
component. -/
def gaussSmoothAt (qs : List Vec4) (t : ℤ) : Vec4 := fun c =>
  (kernelOffsets.map
    (fun j => gaussWeight j * (qs.getD (clampIdx qs.length (t + j)) 0) c)).sum / gaussSum

/-- Tail of the hemisphere-continuity pass (pose/smoothing.py lines 40-42):
each quaternion is negated when its dot with the (already corrected)
previous one is negative. -/
def flipStep (prev : Vec4) : List Vec4 → List Vec4
  | [] => []
  | q :: rest =>
      let q2 := if dot4 prev q < 0 then -q else q
      q2 :: flipStep q2 rest

/-- Hemisphere-continuity pass over the whole sequence. -/
def flipPass : List Vec4 → List Vec4
  | [] => []
  | q :: rest => q :: flipStep q rest

/-- Continuity pass followed by the Gaussian filter (pose/smoothing.py lines
40-46). -/
def smoothQuats (qs : List Vec4) : List Vec4 :=
  (List.range qs.length).map (fun (t : ℕ) => gaussSmoothAt (flipPass qs) (t : ℤ))

/-- Renormalisation to unit quaternions (pose/smoothing.py lines 49-50). -/
def normalizeQuats (qs : List Vec4) : List Vec4 :=
  qs.map (fun q => (Real.sqrt (dot4 q q))⁻¹ • q)

/-- Per-joint quaternion pipeline of smooth_pose_sequence at the default
sigma 2.0 (pose/smoothing.py lines 6-56). -/
def smooth_pose_quats (qs : List Vec4) : List Vec4 :=
  normalizeQuats (smoothQuats qs)

/-- Planar unit-quaternion sequence (components 2 and 3 zero) turning by
about -67.4°, -87.7°, -67.4°: every consecutive pair has positive dot, yet
Gaussian smoothing makes the middle smoothed pair point more than 90°
apart. -/
def c10quats : List Vec4 :=
  [![1, 0, 0, 0],
   ![5/13, -12/13, 0, 0],
   ![-14155/15613, -6588/15613, 0, 0],
   ![-149831/202969, 136920/202969, 0, 0]]

end

end Smoothing

/-! ### pose/metrics.py -/

namespace Metrics

/-- Python exception kinds raised by the metrics module. -/
inductive PyErr where
  | typeError
  | indexError
  | nameError
  deriving DecidableEq, Repr

/-- A landmark (pose/types.py Point3D): x, y, z, visibility. -/
structure Pt where
  x : ℝ
  y : ℝ
  z : ℝ
  visibility : ℝ

/-- pose/types.py FramePose restricted to the fields compute_metrics reads. -/
structure MFramePose where
  timestamp_ms : ℝ
  landmarks : List Pt

/-- A frame dict produced by _poses_to_frames (metrics.py lines 402-414): it
carries the landmarks only; the landmarks_3d key is never set. -/
structure Frame where
  landmarks : List Pt

/-- All-Optional result record of compute_metrics (app/schemas.py
SwingMetrics, the fields set at metrics.py lines 365-395). -/
structure SwingMetrics where
  tempo_ratio : Option ℝ
  backswing_duration_ms : Option ℝ
  downswing_duration_ms : Option ℝ
  chest_turn_top_deg : Option ℝ
  pelvis_turn_top_deg : Option ℝ
  x_factor_top_deg : Option ℝ
  spine_angle_address_deg : Option ℝ
  spine_angle_impact_deg : Option ℝ
  lead_arm_address_deg : Option ℝ
  lead_arm_top_deg : Option ℝ
  lead_arm_impact_deg : Option ℝ
  trail_elbow_address_deg : Option ℝ
  trail_elbow_top_deg : Option ℝ
  trail_elbow_impact_deg : Option ℝ
  knee_flex_left_address_deg : Option ℝ
  knee_flex_right_address_deg : Option ℝ
  head_sway_range : Option ℝ
  early_extension_amount : Option ℝ
  swing_path_index : Option ℝ
  hand_height_at_top_index : Option ℝ
  hand_width_at_top_index : Option ℝ
  head_drop_cm : Option ℝ
  head_rise_cm : Option ℝ
  shoulder_turn_top_deg : Option ℝ
  hip_turn_top_deg : Option ℝ
  spine_tilt_address_deg : Option ℝ
  spine_tilt_impact_deg : Option ℝ

noncomputable section

/-- Python list indexing, including negative indices; out of range raises
IndexError. -/
def pyIndex {α : Type} (l : List α) (i : ℤ) : Except PyErr α :=
  let j := if i < 0 then i + l.length else i
  if j < 0 then .error .indexError
  else
    match l.get? j.toNat with
    | some a => .ok a
    | none => .error .indexError

/-- Python abs() on an Optional float: abs(None) raises TypeError. -/
def pyAbs (v : Option ℝ) : Except PyErr ℝ :=
  match v with
  | none => .error .typeError
  | some a => .ok |a|

/-- Python int() truncation toward zero. -/
def pyTruncR (x : ℝ) : ℤ := if x < 0 then -⌊-x⌋ else ⌊x⌋

/-- Round half to even on a real representing an exact value. -/
def roundEven (x : ℝ) : ℤ :=
  if Int.fract x = 1 / 2 then (if Even ⌊x⌋ then ⌊x⌋ else ⌊x⌋ + 1) else round x

/-- Python round(value, decimals) as used by safe_round. -/
def pyRound (x : ℝ) (d : ℕ) : ℝ := (roundEven (x * 10 ^ d) : ℝ) / 10 ^ d

/-- math.degrees. -/
def degrees (x : ℝ) : ℝ := x * 180 / Real.pi

/-- math.atan2(y, x) as the argument of the complex number x + iy. -/
def atan2 (y x : ℝ) : ℝ := Complex.arg ⟨x, y⟩

/-- _get_xy: 2D landmark lookup; None when the index is past the list. -/
def getXY (f : Frame) (idx : ℕ) : Option (ℝ × ℝ) :=
  (f.landmarks.get? idx).map (fun lm => (lm.x, lm.y))

/-- _get_xyz_from_frame on frames built by _poses_to_frames: landmarks_3d is
never present, so the fallback path reads x, y, z from the landmark dict. -/
def getXYZ (f : Frame) (idx : ℕ) : Option (ℝ × ℝ × ℝ) :=
  (f.landmarks.get? idx).map (fun lm => (lm.x, lm.y, lm.z))

/-- _rotation_angle_3d: requires the landmarks_3d key, which frames built by
_poses_to_frames never carry, so it returns None on every such frame. -/
def rotationAngle3d (_f : Frame) (_l _r : ℕ) : Option ℝ := none

/-- _angle_3d on 3D tuples. -/
def angle3d (p1 p2 p3 : ℝ × ℝ × ℝ) : ℝ :=
  let v1 := (p1.1 - p2.1, p1.2.1 - p2.2.1, p1.2.2 - p2.2.2)
  let v2 := (p3.1 - p2.1, p3.2.1 - p2.2.1, p3.2.2 - p2.2.2)
  let dot := v1.1 * v2.1 + v1.2.1 * v2.2.1 + v1.2.2 * v2.2.2
  let m1 := Real.sqrt (v1.1 ^ 2 + v1.2.1 ^ 2 + v1.2.2 ^ 2)
  let m2 := Real.sqrt (v2.1 ^ 2 + v2.2.1 ^ 2 + v2.2.2 ^ 2)
  if m1 = 0 ∨ m2 = 0 then 0
  else degrees (Real.arccos (max (-1) (min 1 (dot / (m1 * m2)))))

/-- _angle_3d on 2D tuples (z components 0). -/
def angle2d (p1 p2 p3 : ℝ × ℝ) : ℝ :=
  angle3d (p1.1, p1.2, 0) (p2.1, p2.2, 0) (p3.1, p3.2, 0)

/-- _normalize_angle_diff: closed form of the two while loops bringing
angle2 - angle1 into [-180, 180]. -/
def normAngleDiff (angle1 angle2 : ℝ) : ℝ :=
  let diff := angle2 - angle1
  if diff > 180 then diff - 360 * ⌈(diff - 180) / 360⌉
  else if diff < -180 then diff + 360 * ⌈(-180 - diff) / 360⌉
  else diff

/-- _rotation_from_separation_2d. -/
def rotSep2d (f : Frame) (leftIdx rightIdx : ℕ) (maxSep : ℝ) : Option ℝ :=
  match getXY f leftIdx, getXY f rightIdx with
  | some l, some r =>
      let dx := r.1 - l.1
      let dxClamped := max (-maxSep) (min dx maxSep)
      some (degrees (Real.arcsin (dxClamped / maxSep)))
  | _, _ => none

/-- _compute_chest_turn (shoulders 11/12, 2D max_separation 0.055). -/
def computeChestTurn (addressFrame topFrame : Frame) (use3d : Bool) : Option ℝ :=
  let fallback :=
    match rotSep2d addressFrame 11 12 (55 / 1000), rotSep2d topFrame 11 12 (55 / 1000) with
    | some a, some t => some (normAngleDiff a t)
    | _, _ => none
  if use3d then
    match rotationAngle3d addressFrame 11 12, rotationAngle3d topFrame 11 12 with
    | some a, some t => some (normAngleDiff a t)
    | _, _ => fallback
  else fallback

/-- _compute_pelvis_turn (hips 23/24, 2D max_separation 0.07). -/
def computePelvisTurn (addressFrame topFrame : Frame) (use3d : Bool) : Option ℝ :=
  let fallback :=
    match rotSep2d addressFrame 23 24 (7 / 100), rotSep2d topFrame 23 24 (7 / 100) with
    | some a, some t => some (normAngleDiff a t)
    | _, _ => none
  if use3d then
    match rotationAngle3d addressFrame 23 24, rotationAngle3d topFrame 23 24 with
    | some a, some t => some (normAngleDiff a t)
    | _, _ => fallback
  else fallback

/-- _compute_spine_angle. -/
def computeSpineAngle (f : Frame) (use3d : Bool) : Option ℝ :=
  let fallback :=
    match getXY f 11, getXY f 12, getXY f 23, getXY f 24 with
    | some ls, some rs, some lh, some rh =>
        let midSh := ((ls.1 + rs.1) / 2, (ls.2 + rs.2) / 2)
        let midHip := ((lh.1 + rh.1) / 2, (lh.2 + rh.2) / 2)
        some (degrees (atan2 |midSh.1 - midHip.1| (-(midSh.2 - midHip.2))))
    | _, _, _, _ => none
  if use3d then
    match getXYZ f 11, getXYZ f 12, getXYZ f 23, getXYZ f 24 with
    | some ls, some rs, some lh, some rh =>
        let midSh := ((ls.1 + rs.1) / 2, (ls.2.1 + rs.2.1) / 2, (ls.2.2 + rs.2.2) / 2)
        let midHip := ((lh.1 + rh.1) / 2, (lh.2.1 + rh.2.1) / 2, (lh.2.2 + rh.2.2) / 2)
        let sv := (midSh.1 - midHip.1, midSh.2.1 - midHip.2.1, midSh.2.2 - midHip.2.2)
        let dot := sv.2.1 * (-1)
        let len := Real.sqrt (sv.1 ^ 2 + sv.2.1 ^ 2 + sv.2.2 ^ 2)
        if len > 1 / 1000 then
          some (degrees (Real.arccos (max (-1) (min 1 (dot / len)))))
        else fallback
    | _, _, _, _ => fallback
  else fallback

/-- _compute_lead_arm (left shoulder/elbow/wrist 11/13/15). -/
def computeLeadArm (f : Frame) (use3d : Bool) : Option ℝ :=
  if use3d then
    match getXYZ f 11, getXYZ f 13, getXYZ f 15 with
    | some s, some e, some w => some (angle3d s e w)
    | _, _, _ => none
  else
    match getXY f 11, getXY f 13, getXY f 15 with
    | some s, some e, some w => some (angle2d s e w)
    | _, _, _ => none

/-- _compute_trail_elbow (right shoulder/elbow/wrist 12/14/16). -/
def computeTrailElbow (f : Frame) (use3d : Bool) : Option ℝ :=
  if use3d then
    match getXYZ f 12, getXYZ f 14, getXYZ f 16 with
    | some s, some e, some w => some (angle3d s e w)
    | _, _, _ => none
  else
    match getXY f 12, getXY f 14, getXY f 16 with
    | some s, some e, some w => some (angle2d s e w)
    | _, _, _ => none

/-- _compute_knee_flex (hip/knee/ankle left 23/25/27, right 24/26/28). -/
def computeKneeFlex (f : Frame) (use3d : Bool) : Option ℝ × Option ℝ :=
  if use3d then
    (match getXYZ f 23, getXYZ f 25, getXYZ f 27 with
     | some h, some k, some a => some (angle3d h k a)
     | _, _, _ => none,
     match getXYZ f 24, getXYZ f 26, getXYZ f 28 with
     | some h, some k, some a => some (angle3d h k a)
     | _, _, _ => none)
  else
    (match getXY f 23, getXY f 25, getXY f 27 with
     | some h, some k, some a => some (angle2d h k a)
     | _, _, _ => none,
     match getXY f 24, getXY f 26, getXY f 28 with
     | some h, some k, some a => some (angle2d h k a)
     | _, _, _ => none)

/-- foldl-based maximum of a list of reals (np.nanmax on exact values). -/
def listMaxR (l : List ℝ) : ℝ := l.foldl max (l.headD 0)

/-- foldl-based minimum of a list of reals (np.nanmin on exact values). -/
def listMinR (l : List ℝ) : ℝ := l.foldl min (l.headD 0)

/-- _smooth: Savitzky-Golay smoothing with its window guards; the filter
itself is external (scipy), passed in as fsav window values. -/
def smoothR (fsav : ℕ → List ℝ → List ℝ) (values : List ℝ) : List ℝ :=
  let n := values.length
  if n < 5 then values
  else
    let window := min 11 (if n % 2 = 1 then n else n - 1)
    if window < 5 then values else fsav window values

/-- _compute_head_sway_range (nose landmark 0). -/
def computeHeadSwayRange (fsav : ℕ → List ℝ → List ℝ) (frames : List Frame) : Option ℝ :=
  let xs := (frames.filterMap (fun f => getXY f 0)).map Prod.fst
  if xs.length < 2 then none
  else
    let arr := smoothR fsav xs
    some (listMaxR arr - listMinR arr)

/-- _compute_early_extension (hips 23/24 at address and impact). -/
def computeEarlyExtension (addressFrame impactFrame : Frame) : Option ℝ :=
  match getXY addressFrame 23, getXY addressFrame 24,
      getXY impactFrame 23, getXY impactFrame 24 with
  | some al, some ar, some il, some ir =>
      some ((al.2 + ar.2) / 2 - (il.2 + ir.2) / 2)
  | _, _, _, _ => none

/-- _compute_swing_path_index: lateral lead-wrist displacement 20% into the
downswing, normalised by shoulder width; raw list indexing can raise. -/
def computeSwingPathIndex (frames : List Frame) (topFrameIdx impactFrameIdx : ℤ)
    (handedness : String) : Except PyErr (Option ℝ) :=
  if frames.isEmpty ∨ topFrameIdx ≥ frames.length ∨ impactFrameIdx ≥ frames.length then
    .ok none
  else do
    let leadWristIdx : ℕ := if handedness = "Right" then 15 else 16
    let topFrame ← pyIndex frames topFrameIdx
    match getXYZ topFrame leadWristIdx with
    | none => .ok none
    | some topWrist => do
      let downswingFrames := impactFrameIdx - topFrameIdx
      if downswingFrames ≤ 2 then .ok none
      else do
        let transitionOffset := max 2 (pyTruncR ((downswingFrames : ℝ) * (2 / 10)))
        let transitionFrameIdx := min (topFrameIdx + transitionOffset) (impactFrameIdx - 1)
        let transitionFrame ← pyIndex frames transitionFrameIdx
        match getXYZ transitionFrame leadWristIdx with
        | none => .ok none
        | some transitionWrist => do
          let xDisplacement := transitionWrist.1 - topWrist.1
          let xDisplacement := if handedness = "Left" then -xDisplacement else xDisplacement
          match getXYZ topFrame 11, getXYZ topFrame 12 with
          | some ls, some rs =>
              let shoulderWidth := |ls.1 - rs.1|
              if shoulderWidth > 1 / 100 then .ok (some (xDisplacement / shoulderWidth))
              else .ok (some (xDisplacement * 5))
          | _, _ => .ok (some (xDisplacement * 5))

/-- _compute_hand_height. -/
def computeHandHeight (f : Frame) (handedness : String) (use3d : Bool) : Option ℝ :=
  let leadWristIdx : ℕ := if handedness = "Right" then 15 else 16
  let leadShoulderIdx : ℕ := if handedness = "Right" then 11 else 12
  let wrist := if use3d then (getXYZ f leadWristIdx).map (fun p => (p.1, p.2.1))
    else getXY f leadWristIdx
  let shoulder := if use3d then (getXYZ f leadShoulderIdx).map (fun p => (p.1, p.2.1))
    else getXY f leadShoulderIdx
  match wrist, shoulder with
  | some w, some s =>
      let diff := s.2 - w.2
      let lSh := if use3d then (getXYZ f 11).map (fun p => (p.1, p.2.1)) else getXY f 11
      let lHip := if use3d then (getXYZ f 23).map (fun p => (p.1, p.2.1)) else getXY f 23
      match lSh, lHip with
      | some a, some b =>
          let torso := |a.2 - b.2|
          if torso > 1 / 100 then some (diff / torso) else some (diff * 2)
      | _, _ => some (diff * 2)
  | _, _ => none

/-- _compute_hand_width: when the shoulder width is at most 0.01 the code
falls into a branch referencing the undefined names l_hip and diff, raising
NameError (metrics.py lines 716-723). -/
def computeHandWidth (f : Frame) (handedness : String) (use3d : Bool) :
    Except PyErr (Option ℝ) :=
  let leadWristIdx : ℕ := if handedness = "Right" then 15 else 16
  if use3d then
    match getXYZ f leadWristIdx, getXYZ f 11, getXYZ f 12 with
    | some w, some ls, some rs =>
        let chest := ((ls.1 + rs.1) / 2, (ls.2.1 + rs.2.1) / 2, (ls.2.2 + rs.2.2) / 2)
        let dist := Real.sqrt ((w.1 - chest.1) ^ 2 + (w.2.1 - chest.2.1) ^ 2 +
          (w.2.2 - chest.2.2) ^ 2)
        let shWidth := Real.sqrt ((ls.1 - rs.1) ^ 2 + (ls.2.1 - rs.2.1) ^ 2 +
          (ls.2.2 - rs.2.2) ^ 2)
        if shWidth > 1 / 100 then .ok (some (dist / shWidth)) else .error .nameError
    | _, _, _ => .ok none
  else
    match getXY f leadWristIdx, getXY f 11, getXY f 12 with
    | some w, some ls, some rs =>
        let chest := ((ls.1 + rs.1) / 2, (ls.2 + rs.2) / 2)
        let dist := Real.sqrt ((w.1 - chest.1) ^ 2 + (w.2 - chest.2) ^ 2)
        let shWidth := Real.sqrt ((ls.1 - rs.1) ^ 2 + (ls.2 - rs.2) ^ 2)
        if shWidth > 1 / 100 then .ok (some (dist / shWidth)) else .error .nameError
    | _, _, _ => .ok none

/-- _compute_vertical_head_movement: (drop_cm, rise_cm). -/
def computeVerticalHeadMovement (addressFrame topFrame impactFrame : Frame)
    (use3d : Bool) : ℝ × ℝ :=
  let get := fun (f : Frame) (i : ℕ) =>
    if use3d then (getXYZ f i).map (fun p => (p.1, p.2.1)) else getXY f i
  match get addressFrame 0, get topFrame 0, get impactFrame 0 with
  | some an, some tn, some im =>
      let scale :=
        match get addressFrame 11, get addressFrame 23 with
        | some s, some h =>
            let torso := |s.2 - h.2|
            if torso > 1 / 100 then 50 / torso else 100
        | _, _ => 100
      ((tn.2 - an.2) * scale, (tn.2 - im.2) * scale)
  | _, _, _ => (0, 0)

/-- _poses_to_frames: the frame dicts carry the landmarks; landmarks_3d is
never set. -/
def posesToFrames (poses : List MFramePose) : List Frame :=
  poses.map (fun p => ⟨p.landmarks⟩)

/-- All-None metrics (_empty_metrics). -/
def emptyMetrics : SwingMetrics :=
  ⟨none, none, none, none, none, none, none, none, none, none, none, none, none, none,
   none, none, none, none, none, none, none, none, none, none, none, none, none⟩

/-- get_frame: clamped frame access inside compute_metrics. -/
def getFrameClamped (frames : List Frame) (i : ℤ) : Frame :=
  frames.getD (min (max i 0) ((frames.length : ℤ) - 1)).toNat ⟨[]⟩

/-- get_pose: clamped pose access inside compute_metrics. -/
def getPoseClamped (poses : List MFramePose) (i : ℤ) : MFramePose :=
  poses.getD (min (max i 0) ((poses.length : ℤ) - 1)).toNat ⟨0, []⟩

/-- MetricsCalculator.compute_metrics (metrics.py lines 266-395). The savgol
filter used by _smooth is passed in as fsav. use_hybrik is False because
_poses_to_frames never sets landmarks_3d on any frame. The x-factor line
applies Python abs() to the possibly-None chest and pelvis turns, and the
swing-path, hand-height and hand-width metrics are computed with the
hardcoded handedness "Right". -/
def computeMetrics (fsav : ℕ → List ℝ → List ℝ) (poses : List MFramePose)
    (phases : SwingPhases) (_fps : ℝ) : Except PyErr SwingMetrics :=
  if poses.isEmpty then .ok emptyMetrics
  else do
    let frames := posesToFrames poses
    let useHybrik := false
    let addressFrame := getFrameClamped frames phases.address_frame
    let topFrame := getFrameClamped frames phases.top_frame
    let impactFrame := getFrameClamped frames phases.impact_frame
    let addressPose := getPoseClamped poses phases.address_frame
    let topPose := getPoseClamped poses phases.top_frame
    let impactPose := getPoseClamped poses phases.impact_frame
    let tAddress := addressPose.timestamp_ms / 1000
    let tTop := topPose.timestamp_ms / 1000
    let tImpact := impactPose.timestamp_ms / 1000
    let backswingSec := tTop - tAddress
    let downswingSec := tImpact - tTop
    let tempoRatio := if downswingSec > 0 then backswingSec / downswingSec else 0
    let chestTurnTop := computeChestTurn addressFrame topFrame useHybrik
    let pelvisTurnTop := computePelvisTurn addressFrame topFrame useHybrik
    let absChest ← pyAbs chestTurnTop
    let absPelvis ← pyAbs pelvisTurnTop
    let xFactorTop := absChest - absPelvis
    let spineAngleAddress := computeSpineAngle addressFrame useHybrik
    let spineAngleImpact := computeSpineAngle impactFrame useHybrik
    let leadArmAddress := computeLeadArm addressFrame useHybrik
    let leadArmTop := computeLeadArm topFrame useHybrik
    let leadArmImpact := computeLeadArm impactFrame useHybrik
    let trailElbowAddress := computeTrailElbow addressFrame useHybrik
    let trailElbowTop := computeTrailElbow topFrame useHybrik
    let trailElbowImpact := computeTrailElbow impactFrame useHybrik
    let kneeFlex := computeKneeFlex addressFrame useHybrik
    let headSwayRange := computeHeadSwayRange fsav frames
    let earlyExtension := computeEarlyExtension addressFrame impactFrame
    let swingPathIndex ← computeSwingPathIndex frames phases.top_frame
      phases.impact_frame "Right"
    let handHeightIndex := computeHandHeight topFrame "Right" useHybrik
    let handWidthIndex ← computeHandWidth topFrame "Right" useHybrik
    let headVert := computeVerticalHeadMovement addressFrame topFrame impactFrame useHybrik
    .ok
      { tempo_ratio := some (pyRound tempoRatio 2)
        backswing_duration_ms := some (pyRound (backswingSec * 1000) 0)
        downswing_duration_ms := some (pyRound (downswingSec * 1000) 0)
        chest_turn_top_deg := chestTurnTop.map (fun v => pyRound |v| 1)
        pelvis_turn_top_deg := pelvisTurnTop.map (fun v => pyRound |v| 1)
        x_factor_top_deg := some (pyRound xFactorTop 1)
        spine_angle_address_deg := spineAngleAddress.map (fun v => pyRound v 1)
        spine_angle_impact_deg := spineAngleImpact.map (fun v => pyRound v 1)
        lead_arm_address_deg := leadArmAddress.map (fun v => pyRound v 1)
        lead_arm_top_deg := leadArmTop.map (fun v => pyRound v 1)
        lead_arm_impact_deg := leadArmImpact.map (fun v => pyRound v 1)
        trail_elbow_address_deg := trailElbowAddress.map (fun v => pyRound v 1)
        trail_elbow_top_deg := trailElbowTop.map (fun v => pyRound v 1)
        trail_elbow_impact_deg := trailElbowImpact.map (fun v => pyRound v 1)
        knee_flex_left_address_deg := kneeFlex.1.map (fun v => pyRound v 1)
        knee_flex_right_address_deg := kneeFlex.2.map (fun v => pyRound v 1)
        head_sway_range := headSwayRange.map (fun v => pyRound v 4)
        early_extension_amount := earlyExtension.map (fun v => pyRound v 4)
        swing_path_index := swingPathIndex.map (fun v => pyRound v 3)
        hand_height_at_top_index := handHeightIndex.map (fun v => pyRound v 3)
        hand_width_at_top_index := handWidthIndex.map (fun v => pyRound v 3)
        head_drop_cm := some (pyRound headVert.1 1)
        head_rise_cm := some (pyRound headVert.2 1)
        shoulder_turn_top_deg := chestTurnTop.map (fun v => pyRound |v| 1)
        hip_turn_top_deg := pelvisTurnTop.map (fun v => pyRound |v| 1)
        spine_tilt_address_deg := spineAngleAddress.map (fun v => pyRound v 1)
        spine_tilt_impact_deg := spineAngleImpact.map (fun v => pyRound v 1) }

/-- MetricsCalculator.detect_handedness (metrics.py lines 794-813): raw
(unclamped) indexing into poses and landmarks. -/
def detect_handedness (poses : List MFramePose) (phases : SwingPhases) :
    Except PyErr String :=
  if poses.isEmpty then .ok "Right"
  else do
    let addressPose ← pyIndex poses phases.address_frame
    let topPose ← pyIndex poses phases.top_frame
    let alw ← pyIndex addressPose.landmarks 15
    let arw ← pyIndex addressPose.landmarks 16
    let tlw ← pyIndex topPose.landmarks 15
    let trw ← pyIndex topPose.landmarks 16
    let xAddress := (alw.x + arw.x) / 2
    let xTop := (tlw.x + trw.x) / 2
    .ok (if xTop < xAddress then "Left" else "Right")


/-- All-zero landmark with visibility 1. -/
def zeroPt : Pt := ⟨0, 0, 0, 1⟩

/-- A 25-landmark list: shoulders 11/12 at x = s11/s12, wrists 15/16 at
x = w15/w16, everything else at the origin. -/
def mkLms (w15 w16 s11 s12 : ℝ) : List Pt :=
  List.replicate 11 zeroPt ++ [⟨s11, 0, 0, 1⟩, ⟨s12, 0, 0, 1⟩] ++
    List.replicate 2 zeroPt ++ [⟨w15, 0, 0, 1⟩, ⟨w16, 0, 0, 1⟩] ++
    List.replicate 8 zeroPt

/-- Six frames: wrists centred at x = 1 at address (frame 0), at x = 0 at the
top (frame 1), with the left wrist at x = 1/2 during transition (frame 3);
shoulders separated by 2/5 at the top. Mean wrist x decreases from address to
top, so detect_handedness returns "Left". -/
def c9poses : List MFramePose :=
  [⟨0, mkLms 1 1 0 0⟩,
   ⟨0, mkLms 0 0 0 (2/5)⟩,
   ⟨0, mkLms 0 0 0 0⟩,
   ⟨0, mkLms (1/2) 0 0 0⟩,
   ⟨0, mkLms 0 0 0 0⟩,
   ⟨0, mkLms 0 0 0 0⟩]

/-- Phases for the six-frame sequence: address 0, top 1, impact 5. -/
def c9phases : SwingPhases := ⟨0, 1, 5, 5⟩

end

end Metrics

/-! ### Helper lemmas -/

namespace Scoring

/-- Shape of calculate_smooth_score as a function of the absolute difference. -/
lemma css_eq (v t i o : ℚ) : calculate_smooth_score v t i o =
    if |v - t| ≤ i then 100
    else if |v - t| ≥ o then 0
    else if o - i ≤ 0 then 0
    else 100 * (1 - (|v - t| - i) / (o - i)) := rfl

/-- Monotone decay of the score in the absolute difference. -/
lemma smooth_score_mono (t i o : ℚ) (h0 : 0 ≤ i) (hio : i < o) {v1 v2 : ℚ}
    (h : |v1 - t| ≤ |v2 - t|) :
    calculate_smooth_score v2 t i o ≤ calculate_smooth_score v1 t i o := by
  rw [css_eq, css_eq]
  have hd1 : (0 : ℚ) ≤ |v1 - t| := abs_nonneg _
  have hspan : (0 : ℚ) < o - i := by linarith
  have hdiv : (|v1 - t| - i) / (o - i) ≤ (|v2 - t| - i) / (o - i) :=
    (div_le_div_iff_of_pos_right hspan).mpr (by linarith)
  have q1le : |v1 - t| < o → (|v1 - t| - i) / (o - i) ≤ 1 := fun hlt => by
    rw [div_le_one hspan]; linarith
  have q2ge : i < |v2 - t| → 0 ≤ (|v2 - t| - i) / (o - i) := fun hlt =>
    div_nonneg (by linarith) hspan.le
  split_ifs
  all_goals
    first
      | linarith
      | linarith [q1le (by linarith)]
      | linarith [q2ge (by linarith)]

/-- Cons step of the weighted-score sum. -/
lemma weightedSum_cons (metrics : String → Option ℚ) (wm : List (String × ℚ))
    (kt : String × MetricTarget) (rest : List (String × MetricTarget)) :
    weightedSum metrics wm (kt :: rest) =
    (if included metrics wm kt then entryScore metrics kt * effWeight wm kt.1 kt.2 else 0) +
    weightedSum metrics wm rest := by
  by_cases h : included metrics wm kt <;> simp [weightedSum, List.filter_cons, h]

/-- Cons step of the weight sum. -/
lemma weightSum_cons (metrics : String → Option ℚ) (wm : List (String × ℚ))
    (kt : String × MetricTarget) (rest : List (String × MetricTarget)) :
    weightSum metrics wm (kt :: rest) =
    (if included metrics wm kt then effWeight wm kt.1 kt.2 else 0) +
    weightSum metrics wm rest := by
  by_cases h : included metrics wm kt <;> simp [weightSum, List.filter_cons, h]

/-- The build_scores fold accumulates exactly the weighted-score sum and the
weight sum over included entries. -/
lemma buildScores_foldl (metrics : String → Option ℚ) (wm : List (String × ℚ))
    (targets : List (String × MetricTarget)) :
    ∀ (s w : ℚ) (ms : List (String × MetricScore)),
    (targets.foldl (buildScoresStep metrics wm) (s, w, ms)).1 =
      s + weightedSum metrics wm targets ∧
    (targets.foldl (buildScoresStep metrics wm) (s, w, ms)).2.1 =
      w + weightSum metrics wm targets := by
  induction targets with
  | nil => intro s w ms; simp [weightedSum, weightSum]
  | cons kt rest ih =>
    intro s w ms
    rw [List.foldl_cons, weightedSum_cons, weightSum_cons]
    rcases hv : metrics kt.1 with _ | val
    · have hstep : buildScoresStep metrics wm (s, w, ms) kt = (s, w, ms) := by
        simp [buildScoresStep, hv]
      have hni : ¬ included metrics wm kt := by simp [included, hv]
      rw [hstep, if_neg hni, if_neg hni]
      constructor
      · rw [(ih _ _ _).1]; ring
      · rw [(ih _ _ _).2]; ring
    · have hinc : included metrics wm kt ↔ 0 < effWeight wm kt.1 kt.2 := by
        simp [included, hv]
      have hesc : entryScore metrics kt =
          calculate_smooth_score val kt.2.target kt.2.inner_tol kt.2.outer_tol := by
        simp [entryScore, hv]
      by_cases hw : 0 < effWeight wm kt.1 kt.2
      · have hstep : buildScoresStep metrics wm (s, w, ms) kt =
            (s + calculate_smooth_score val kt.2.target kt.2.inner_tol kt.2.outer_tol *
              effWeight wm kt.1 kt.2,
             w + effWeight wm kt.1 kt.2,
             ms ++ [(kt.1, ⟨val, scoreColor (calculate_smooth_score val kt.2.target
               kt.2.inner_tol kt.2.outer_tol), kt.2.target - kt.2.inner_tol,
               kt.2.target + kt.2.inner_tol, effWeight wm kt.1 kt.2⟩)]) := by
          simp only [buildScoresStep, hv]
          rw [if_pos hw]
        rw [hstep, if_pos (hinc.mpr hw), if_pos (hinc.mpr hw), hesc]
        constructor
        · rw [(ih _ _ _).1]; ring
        · rw [(ih _ _ _).2]; ring
      · have hstep : buildScoresStep metrics wm (s, w, ms) kt =
            (s, w, ms ++ [(kt.1, ⟨val, scoreColor (calculate_smooth_score val kt.2.target
               kt.2.inner_tol kt.2.outer_tol), kt.2.target - kt.2.inner_tol,
               kt.2.target + kt.2.inner_tol, effWeight wm kt.1 kt.2⟩)]) := by
          simp only [buildScoresStep, hv]
          rw [if_neg hw]
        have hni : ¬ included metrics wm kt := fun hc => hw (hinc.mp hc)
        rw [hstep, if_neg hni, if_neg hni]
        constructor
        · rw [(ih _ _ _).1]; ring
        · rw [(ih _ _ _).2]; ring

/-- Overall score as a closed formula over the included entries. -/
lemma build_scores_formula (metrics : String → Option ℚ) (ref : ReferenceProfile) :
    (build_scores metrics ref).overall_score =
      if 0 < weightSum metrics (viewWeights ref.view) ref.targets then
        pyInt (weightedSum metrics (viewWeights ref.view) ref.targets /
               weightSum metrics (viewWeights ref.view) ref.targets)
      else 0 := by
  obtain ⟨h1, h2⟩ := buildScores_foldl metrics (viewWeights ref.view) ref.targets 0 0 []
  simp only [build_scores, h1, h2, zero_add]

/-- Sums over a profile are unchanged when an entry with zero effective
weight or an absent value is dropped. -/
lemma sums_drop_excluded (metrics : String → Option ℚ) (wm : List (String × ℚ))
    (key : String) (t : MetricTarget) (T1 T2 : List (String × MetricTarget))
    (h : effWeight wm key t = 0 ∨ metrics key = none) :
    weightedSum metrics wm (T1 ++ (key, t) :: T2) = weightedSum metrics wm (T1 ++ T2) ∧
    weightSum metrics wm (T1 ++ (key, t) :: T2) = weightSum metrics wm (T1 ++ T2) := by
  have hni : ¬ included metrics wm (key, t) := by
    rcases h with h | h
    · intro hc; rw [included] at hc; simp only at hc; rw [h] at hc; exact lt_irrefl 0 hc.2
    · intro hc; rw [included] at hc; simp only at hc; rw [h] at hc; simp at hc
  have hd : decide (included metrics wm (key, t)) = false := decide_eq_false hni
  constructor <;>
    simp [weightedSum, weightSum, List.filter_append, List.filter_cons, hd]

end Scoring

namespace SwingDetect

/-- Safety pass plus clamping yields strictly ordered phases inside the
sequence whenever the incoming address is non-negative and n is at least 4. -/
lemma safetyClamp_ordered (a t i f : ℤ) (n : ℕ) (ha : 0 ≤ a) (hn : 4 ≤ n) :
    0 ≤ (safetyClampPhases a t i f n).address_frame ∧
    (safetyClampPhases a t i f n).address_frame < (safetyClampPhases a t i f n).top_frame ∧
    (safetyClampPhases a t i f n).top_frame < (safetyClampPhases a t i f n).impact_frame ∧
    (safetyClampPhases a t i f n).impact_frame < (safetyClampPhases a t i f n).finish_frame ∧
    (safetyClampPhases a t i f n).finish_frame < (n : ℤ) := by
  simp only [safetyClampPhases]
  set t1 := if t ≤ a then a + 5 else t with ht1
  set i1 := if i ≤ t1 then t1 + 5 else i with hi1
  set f1 := if f ≤ i1 then i1 + 5 else f with hf1
  have h1 : a < t1 := by rw [ht1]; split <;> omega
  have h2 : t1 < i1 := by rw [hi1]; split <;> omega
  have h3 : i1 < f1 := by rw [hf1]; split <;> omega
  set f2 := min f1 ((n : ℤ) - 1) with hf2
  set i2 := min i1 (f2 - 1) with hi2
  set t2 := min t1 (i2 - 1) with ht2
  set a2 := min a (t2 - 1) with ha2
  have hf2a : f2 ≤ (n : ℤ) - 1 := min_le_right _ _
  have hf2b : 3 ≤ f2 := le_min (by omega) (by omega)
  have hi2a : i2 ≤ f2 - 1 := min_le_right _ _
  have hi2b : 2 ≤ i2 := le_min (by omega) (by omega)
  have ht2a : t2 ≤ i2 - 1 := min_le_right _ _
  have ht2b : 1 ≤ t2 := le_min (by omega) (by omega)
  have ha2a : a2 ≤ t2 - 1 := min_le_right _ _
  have ha2b : 0 ≤ a2 := le_min ha (by omega)
  rw [max_eq_right ha2b, max_eq_right (by omega : (0 : ℤ) ≤ t2),
      max_eq_right (by omega : (0 : ℤ) ≤ i2), max_eq_right (by omega : (0 : ℤ) ≤ f2)]
  exact ⟨ha2b, by omega, by omega, by omega, by omega⟩

end SwingDetect

namespace Kinematics

/-- Every non-root joint's parent index is smaller than the joint index. -/
lemma parentIdx_lt (i : ℕ) (h1 : 0 < i) (h2 : i < 24) : parentIdx i < i :=
  (by decide : ∀ j, j < 24 → 0 < j → parentIdx j < j) i h2 h1

/-- getD through the image of List.range. -/
lemma getD_map_range (n : ℕ) (f : ℕ → Vec3) (i : ℕ) (h : i < n) :
    ((List.range n).map f).getD i 0 = f i := by
  rw [List.getD_eq_getElem?_getD, List.getElem?_map, List.getElem?_range h]
  rfl

/-- The explicit 3×3 inverse is a left inverse when the determinant is
non-zero. -/
lemma inv3_mul (A : Mat3) (h : A.det ≠ 0) : inv3 A * A = 1 := by
  rw [inv3, smul_mul_assoc, Matrix.adjugate_mul, smul_smul,
    inv_mul_cancel₀ h, one_smul]

/-- An orthogonal matrix has non-zero determinant. -/
lemma det_ne_zero_of_orth (A : Mat3) (h : A.transpose * A = 1) : A.det ≠ 0 := by
  intro hz
  have h1 : (A.transpose * A).det = (1 : Mat3).det := by rw [h]
  rw [Matrix.det_mul, Matrix.det_transpose, Matrix.det_one, hz] at h1
  norm_num at h1

/-- Global rotations of the first 24 joints have non-zero determinant when
every local rotation does. -/
lemma globalRot_det_ne (R : ℕ → Mat3) (h : ∀ j, j < 24 → (R j).det ≠ 0) :
    ∀ j, j < 24 → (globalRot R j).det ≠ 0 := by
  intro j
  induction j using Nat.strong_induction_on with
  | _ j ih =>
    intro hj
    match j with
    | 0 =>
        rw [globalRot]
        exact h 0 hj
    | k + 1 =>
        rw [globalRot, Matrix.det_mul]
        have hp : parentIdx (k + 1) < k + 1 := parentIdx_lt _ (Nat.succ_pos k) hj
        exact mul_ne_zero (ih _ hp (lt_trans hp hj)) (h _ hj)

end Kinematics

namespace IK

/-- Componentwise subtraction of vector literals. -/
lemma vsub3 (a b c d e f : ℝ) : (![a, b, c] - ![d, e, f]) = ![a - d, b - e, c - f] := by
  funext i; fin_cases i <;> simp

/-- Componentwise addition of vector literals. -/
lemma vadd3 (a b c d e f : ℝ) : (![a, b, c] + ![d, e, f]) = ![a + d, b + e, c + f] := by
  funext i; fin_cases i <;> simp

/-- Componentwise scalar multiple of a vector literal. -/
lemma vsmul3 (r a b c : ℝ) : r • ![a, b, c] = ![r * a, r * b, r * c] := by
  funext i; fin_cases i <;> simp

/-- Dot product of vector literals. -/
lemma dot3_lit (a b c d e f : ℝ) : dot3 ![a, b, c] ![d, e, f] = a * d + b * e + c * f := rfl

/-- Cross product of vector literals. -/
lemma cross3_lit (a b c d e f : ℝ) :
    cross3 ![a, b, c] ![d, e, f] = ![b * f - c * e, c * d - a * f, a * e - b * d] := rfl

/-- Norm of a vector literal. -/
lemma norm3_lit (a b c : ℝ) : norm3 ![a, b, c] = Real.sqrt (a * a + b * b + c * c) := rfl

end IK

namespace SwingDetect

/-- The range-restricted find? returns the first index satisfying the
predicate. -/
lemma find?_range'_eq_some (p : ℕ → Bool) (i : ℕ) :
    ∀ (s len : ℕ), s ≤ i → i < s + len → p i = true →
      (∀ j, s ≤ j → j < i → p j = false) →
      (List.range' s len).find? p = some i := by
  intro s len
  induction len generalizing s with
  | zero => intro h1 h2 _ _; omega
  | succ m ih =>
    intro hs hlt hp hmin
    rw [List.range'_succ]
    by_cases hsi : s = i
    · subst hsi
      exact List.find?_cons_of_pos _ hp
    · have hplt : p s = false := hmin s le_rfl (by omega)
      rw [List.find?_cons_of_neg _ (by simp [hplt])]
      exact ih (s + 1) (by omega) (by omega) hp (fun j hj => hmin j (by omega))

end SwingDetect

namespace Smoothing

/-- Negating the right argument negates the dot product. -/
lemma dot4_neg_right (u v : Vec4) : dot4 u (-v) = -dot4 u v := by
  simp only [dot4, Pi.neg_apply]
  ring

/-- Bilinearity of the dot product under scalar rescaling. -/
lemma dot4_smul_smul (a b : ℝ) (u v : Vec4) :
    dot4 (a • u) (b • v) = a * b * dot4 u v := by
  simp only [dot4, Pi.smul_apply, smul_eq_mul]
  ring

/-- The 17 kernel offsets written out. -/
lemma kernelOffsets_eq : kernelOffsets =
    [-8, -7, -6, -5, -4, -3, -2, -1, 0, 1, 2, 3, 4, 5, 6, 7, 8] := by decide

/-- Each Gaussian weight is a power of the base weight exp(-1/8). -/
lemma gaussWeight_eq_pow (j : ℤ) :
    gaussWeight j = Real.exp (-(1 : ℝ) / 8) ^ j.natAbs ^ 2 := by
  rw [gaussWeight, ← Real.exp_nat_mul]
  congr 1
  push_cast [Int.cast_natAbs, sq_abs]
  ring

/-- The kernel normalisation constant is positive. -/
lemma gaussSum_pos : (0 : ℝ) < gaussSum := by
  rw [gaussSum, kernelOffsets_eq]
  simp only [List.map_cons, List.map_nil, List.sum_cons, List.sum_nil, gaussWeight]
  positivity

/-- Rational upper bound on the base weight exp(-1/8), from
exp 1 > 2.7182818283. -/
lemma exp_eighth_lt : Real.exp (-(1 : ℝ) / 8) < 10000 / 11331 := by
  have hx8 : Real.exp (-(1 : ℝ) / 8) ^ 8 = (Real.exp 1)⁻¹ := by
    rw [← Real.exp_nat_mul, ← Real.exp_neg]
    norm_num
  have he : (2.7182818283 : ℝ) < Real.exp 1 := Real.exp_one_gt_d9
  by_contra hle
  push_neg at hle
  have h8 : ((10000 : ℝ) / 11331) ^ 8 ≤ Real.exp (-(1 : ℝ) / 8) ^ 8 :=
    pow_le_pow_left₀ (by norm_num) hle 8
  rw [hx8] at h8
  have hinv : (Real.exp 1)⁻¹ < (2.7182818283 : ℝ)⁻¹ := by
    apply inv_strictAnti₀ (by norm_num) he
  have hcon : ((10000 : ℝ) / 11331) ^ 8 < (2.7182818283 : ℝ)⁻¹ := lt_of_le_of_lt h8 hinv
  norm_num at hcon

/-- Rational lower bound on the base weight exp(-1/8), from
exp 1 < 2.7182818286. -/
lemma exp_eighth_gt : (10000 : ℝ) / 11332 < Real.exp (-(1 : ℝ) / 8) := by
  have hx8 : Real.exp (-(1 : ℝ) / 8) ^ 8 = (Real.exp 1)⁻¹ := by
    rw [← Real.exp_nat_mul, ← Real.exp_neg]
    norm_num
  have he : Real.exp 1 < 2.7182818286 := Real.exp_one_lt_d9
  by_contra hle
  push_neg at hle
  have h8 : Real.exp (-(1 : ℝ) / 8) ^ 8 ≤ ((10000 : ℝ) / 11332) ^ 8 :=
    pow_le_pow_left₀ (le_of_lt (Real.exp_pos _)) hle 8
  rw [hx8] at h8
  have hinv : (2.7182818286 : ℝ)⁻¹ < (Real.exp 1)⁻¹ := by
    apply inv_strictAnti₀ (Real.exp_pos 1) he
  have hcon : (2.7182818286 : ℝ)⁻¹ < ((10000 : ℝ) / 11332) ^ 8 := lt_of_lt_of_le hinv h8
  norm_num at hcon

/-- getD through map at an in-range index. -/
lemma getD_map_of_lt {α β : Type} (f : α → β) (l : List α) (i : ℕ) (d : β) (d2 : α)
    (h : i < l.length) : (l.map f).getD i d = f (l.getD i d2) := by
  rw [List.getD_eq_getElem?_getD, List.getElem?_map, List.getElem?_eq_getElem h,
    List.getD_eq_getElem?_getD, List.getElem?_eq_getElem h]
  rfl

/-- getD through a mapped range at an in-range index. -/
lemma getD_map_range_of_lt {α : Type} (n : ℕ) (f : ℕ → α) (d : α) (i : ℕ) (h : i < n) :
    ((List.range n).map f).getD i d = f i := by
  rw [List.getD_eq_getElem?_getD, List.getElem?_map, List.getElem?_range h]
  rfl

/-- Every consecutive pair in the output of the tail of the continuity pass
has nonnegative dot product with its predecessor. -/
lemma flipStep_chain (rest : List Vec4) : ∀ (prev : Vec4) (i : ℕ),
    i + 1 < (prev :: flipStep prev rest).length →
    0 ≤ dot4 ((prev :: flipStep prev rest).getD i 0)
      ((prev :: flipStep prev rest).getD (i + 1) 0) := by
  induction rest with
  | nil =>
    intro prev i h
    simp only [flipStep, List.length_cons, List.length_nil] at h
    omega
  | cons q rest ih =>
    intro prev i h
    simp only [flipStep] at h ⊢
    match i with
    | 0 =>
      simp only [List.getD_cons_zero, List.getD_cons_succ]
      by_cases hd : dot4 prev q < 0
      · rw [if_pos hd, dot4_neg_right]
        linarith
      · rw [if_neg hd]
        exact not_lt.mp hd
    | i' + 1 =>
      simp only [List.getD_cons_succ]
      apply ih
      simp only [List.length_cons] at h ⊢
      omega

end Smoothing

namespace Metrics

lemma except_bind_ok {ε α β : Type} {x : Except ε α} {f : α → Except ε β} {b : β}
    (h : x >>= f = .ok b) : ∃ a, x = .ok a ∧ f a = .ok b := by
  cases x with
  | error e => exact absurd h (by simp [Bind.bind, Except.bind])
  | ok a =>
      refine ⟨a, rfl, ?_⟩
      simpa [Bind.bind, Except.bind] using h

lemma except_ok_bind {ε α β : Type} (a : α) (f : α → Except ε β) :
    (Except.ok a : Except ε α) >>= f = f a := rfl

lemma pyAbs_some (v : ℝ) : pyAbs (some v) = .ok |v| := rfl

lemma roundEven_intCast (n : ℤ) : roundEven (n : ℝ) = n := by
  rw [roundEven, if_neg, round_intCast]
  rw [Int.fract_intCast]
  norm_num

lemma pyRound_eq_self (x : ℝ) (d : ℕ) (n : ℤ) (h : x * 10 ^ d = (n : ℝ)) :
    pyRound x d = x := by
  rw [pyRound, h, roundEven_intCast, ← h]
  rw [mul_div_assoc]
  rw [div_self (by positivity), mul_one]

end Metrics

/-! ### Claim theorems -/

open Scoring SwingDetect Kinematics IK Smoothing Metrics

/-- C5: calculate_smooth_score lies in [0,100]; it is 100 exactly on the
inner band (hence at the target), 0 outside the outer band (hence at
target ± outer_tol), interpolates linearly in between, and is non-increasing
in the absolute distance to the target. -/
theorem c5_smooth_score (value target inner_tol outer_tol : ℚ)
    (h0 : 0 ≤ inner_tol) (hio : inner_tol < outer_tol) :
    (0 ≤ calculate_smooth_score value target inner_tol outer_tol ∧
      calculate_smooth_score value target inner_tol outer_tol ≤ 100) ∧
    (|value - target| ≤ inner_tol →
      calculate_smooth_score value target inner_tol outer_tol = 100) ∧
    calculate_smooth_score target target inner_tol outer_tol = 100 ∧
    (outer_tol ≤ |value - target| →
      calculate_smooth_score value target inner_tol outer_tol = 0) ∧
    calculate_smooth_score (target + outer_tol) target inner_tol outer_tol = 0 ∧
    calculate_smooth_score (target - outer_tol) target inner_tol outer_tol = 0 ∧
    (inner_tol < |value - target| → |value - target| < outer_tol →
      calculate_smooth_score value target inner_tol outer_tol =
        100 * (1 - (|value - target| - inner_tol) / (outer_tol - inner_tol))) ∧
    (∀ v1 v2 : ℚ, |v1 - target| ≤ |v2 - target| →
      calculate_smooth_score v2 target inner_tol outer_tol ≤
        calculate_smooth_score v1 target inner_tol outer_tol) := by
  have hspan : (0 : ℚ) < outer_tol - inner_tol := by linarith
  refine ⟨?_, ?_, ?_, ?_, ?_, ?_, ?_, ?_⟩
  · rw [css_eq]
    split_ifs with hA hB hC
    · norm_num
    · norm_num
    · norm_num
    · have hq0 : 0 ≤ (|value - target| - inner_tol) / (outer_tol - inner_tol) :=
        div_nonneg (by linarith [not_le.mp hA]) hspan.le
      have hq1 : (|value - target| - inner_tol) / (outer_tol - inner_tol) ≤ 1 := by
        rw [div_le_one hspan]; linarith [not_le.mp hB]
      constructor <;> linarith
  · intro h; rw [css_eq, if_pos h]
  · rw [css_eq, if_pos (by simp [h0])]
  · intro h; rw [css_eq, if_neg (by linarith), if_pos h]
  · have habs : |target + outer_tol - target| = outer_tol := by
      rw [show target + outer_tol - target = outer_tol by ring,
          abs_of_nonneg (by linarith)]
    rw [css_eq, habs, if_neg (by linarith), if_pos le_rfl]
  · have habs : |target - outer_tol - target| = outer_tol := by
      rw [show target - outer_tol - target = -outer_tol by ring, abs_neg,
          abs_of_nonneg (by linarith)]
    rw [css_eq, habs, if_neg (by linarith), if_pos le_rfl]
  · intro h1 h2
    rw [css_eq, if_neg (by linarith), if_neg (by linarith), if_neg (by linarith)]
  · intro v1 v2 h
    exact smooth_score_mono target inner_tol outer_tol h0 hio h

/-- C5 witness: the hypotheses hold at (value, target, inner, outer) =
(0, 0, 1, 2) and the score at the target is 100. -/
theorem c5_smooth_score_witness :
    ((0 : ℚ) ≤ 1 ∧ (1 : ℚ) < 2) ∧ calculate_smooth_score 0 0 1 2 = 100 :=
  ⟨⟨by norm_num, by norm_num⟩,
   (c5_smooth_score 0 0 1 2 (by norm_num) (by norm_num)).2.2.1⟩

/-- C6 (amended): the aggregate equals the integer truncation of
Σ score·weight / Σ weight over exactly the profile metrics with a present
value and positive effective weight (0 when that set is empty) — the claim
as stated omits the truncation to int; and dropping an entry whose effective
weight is 0 or whose value is absent never changes the aggregate. -/
theorem c6_aggregate_exclusion (metrics : String → Option ℚ) (ref : ReferenceProfile) :
    ((build_scores metrics ref).overall_score =
      if 0 < weightSum metrics (viewWeights ref.view) ref.targets then
        pyInt (weightedSum metrics (viewWeights ref.view) ref.targets /
               weightSum metrics (viewWeights ref.view) ref.targets)
      else 0) ∧
    (∀ (nm ct key : String) (t : MetricTarget) (T1 T2 : List (String × MetricTarget)),
      effWeight (viewWeights ref.view) key t = 0 ∨ metrics key = none →
      (build_scores metrics ⟨nm, ref.view, ct, T1 ++ (key, t) :: T2⟩).overall_score =
      (build_scores metrics ⟨nm, ref.view, ct, T1 ++ T2⟩).overall_score) := by
  refine ⟨build_scores_formula metrics ref, ?_⟩
  intro nm ct key t T1 T2 h
  obtain ⟨hS, hW⟩ := sums_drop_excluded metrics (viewWeights ref.view) key t T1 T2 h
  rw [build_scores_formula metrics ⟨nm, ref.view, ct, T1 ++ (key, t) :: T2⟩,
      build_scores_formula metrics ⟨nm, ref.view, ct, T1 ++ T2⟩]
  simp only [hS, hW]

/-- C6 witness: at a one-entry profile whose entry has default weight 0, the
inner hypothesis holds and dropping the entry leaves the aggregate equal. -/
theorem c6_aggregate_exclusion_witness :
    (effWeight (viewWeights "dtl") "zz" ⟨0, 0, 1, 0⟩ = 0 ∨
      (fun _ => (none : Option ℚ)) "zz" = none) ∧
    (build_scores (fun _ => none) ⟨"n", "dtl", "c", [("zz", ⟨0, 0, 1, 0⟩)]⟩).overall_score =
    (build_scores (fun _ => none) ⟨"n", "dtl", "c", []⟩).overall_score :=
  ⟨Or.inl (by decide),
   (c6_aggregate_exclusion (fun _ => none) ⟨"n", "dtl", "c", []⟩).2
     "n" "c" "zz" ⟨0, 0, 1, 0⟩ [] [] (Or.inl (by decide))⟩

/-- C6 counterexample: with one profile metric (target 0, inner 0, outer 3,
weight 1) and value 1, the weighted mean is 200/3 but build_scores returns
the truncated integer 66, so the aggregate does not equal
Σ score·weight / Σ weight as the claim states. -/
theorem c6_aggregate_counterexample :
    ((build_scores (fun k => if k = "m" then some 1 else none)
        ⟨"P", "dtl", "driver", [("m", ⟨0, 0, 3, 1⟩)]⟩).overall_score : ℚ) ≠
      weightedSum (fun k => if k = "m" then some 1 else none) DTL_WEIGHTS
        [("m", ⟨0, 0, 3, 1⟩)] /
      weightSum (fun k => if k = "m" then some 1 else none) DTL_WEIGHTS
        [("m", ⟨0, 0, 3, 1⟩)] := by
  have hlook : List.lookup "m" DTL_WEIGHTS = none := by simp [List.lookup, DTL_WEIGHTS]
  have heff : effWeight DTL_WEIGHTS "m" (⟨0, 0, 3, 1⟩ : MetricTarget) = 1 := by
    simp [effWeight, hlook]
  have hinc : included (fun k => if k = "m" then some 1 else none) DTL_WEIGHTS
      ("m", (⟨0, 0, 3, 1⟩ : MetricTarget)) := by
    exact ⟨by simp, by simp [heff]⟩
  have hscore : entryScore (fun k => if k = "m" then some 1 else none)
      ("m", (⟨0, 0, 3, 1⟩ : MetricTarget)) = 200/3 := by
    norm_num [entryScore, calculate_smooth_score]
  have hW : weightSum (fun k => if k = "m" then some 1 else none) DTL_WEIGHTS
      [("m", (⟨0, 0, 3, 1⟩ : MetricTarget))] = 1 := by
    simp [weightSum, List.filter, hinc, heff]
  have hS : weightedSum (fun k => if k = "m" then some 1 else none) DTL_WEIGHTS
      [("m", (⟨0, 0, 3, 1⟩ : MetricTarget))] = 200/3 := by
    simp [weightedSum, List.filter, hinc, heff, hscore]
  have hfloor : ⌊(200 : ℚ) / 3⌋ = 66 := by
    rw [Int.floor_eq_iff]
    norm_num
  rw [build_scores_formula]
  dsimp only
  rw [show viewWeights "dtl" = DTL_WEIGHTS by simp [viewWeights], hW, hS,
      if_pos one_pos]
  norm_num [pyInt, hfloor]

/-- C3: with at least 10 frames the detected phases satisfy
0 ≤ address < top < impact ≤ finish < n, whatever the smoothing functions,
poses and fps. -/
theorem c3_phase_ordering (f7 f5 : List ℚ → List ℚ) (poses : List SwingDetect.FramePose)
    (fps : ℚ) (h : 10 ≤ poses.length) :
    0 ≤ (detect_swing_phases f7 f5 poses fps).address_frame ∧
    (detect_swing_phases f7 f5 poses fps).address_frame <
      (detect_swing_phases f7 f5 poses fps).top_frame ∧
    (detect_swing_phases f7 f5 poses fps).top_frame <
      (detect_swing_phases f7 f5 poses fps).impact_frame ∧
    (detect_swing_phases f7 f5 poses fps).impact_frame ≤
      (detect_swing_phases f7 f5 poses fps).finish_frame ∧
    (detect_swing_phases f7 f5 poses fps).finish_frame < (poses.length : ℤ) := by
  have hne : poses ≠ [] := by
    intro he; rw [he] at h; simp at h
  have hnl : ¬ poses.length < 10 := by omega
  simp only [detect_swing_phases, if_neg hne, if_neg hnl]
  obtain ⟨g1, g2, g3, g4, g5⟩ :=
    safetyClamp_ordered _ _ _ _ poses.length (Int.natCast_nonneg _) (by omega)
  exact ⟨g1, g2, g3, g4.le, g5⟩

/-- C3 witness: ten frames with empty landmark lists satisfy the hypothesis
and the detected address frame is non-negative. -/
theorem c3_phase_ordering_witness :
    10 ≤ (List.replicate 10 (⟨0, 0, []⟩ : SwingDetect.FramePose)).length ∧
    0 ≤ (detect_swing_phases id id
      (List.replicate 10 (⟨0, 0, []⟩ : SwingDetect.FramePose)) 30).address_frame :=
  ⟨by decide,
   (c3_phase_ordering id id (List.replicate 10 ⟨0, 0, []⟩) 30 (by decide)).1⟩

/-- C4: with fewer than 10 frames (the empty sequence included) the detector
returns the all-zero phases. -/
theorem c4_short_sequence (f7 f5 : List ℚ → List ℚ) (poses : List SwingDetect.FramePose)
    (fps : ℚ) (h : poses.length < 10) :
    detect_swing_phases f7 f5 poses fps = ⟨0, 0, 0, 0⟩ := by
  cases poses with
  | nil => simp [detect_swing_phases]
  | cons p ps =>
    have hne : p :: ps ≠ [] := List.cons_ne_nil p ps
    simp only [detect_swing_phases, if_neg hne, if_pos h]

/-- C4 witness: a 5-frame sequence is below the minimum and yields
(0, 0, 0, 0). -/
theorem c4_short_sequence_witness :
    (List.replicate 5 (⟨0, 0, []⟩ : SwingDetect.FramePose)).length < 10 ∧
    detect_swing_phases id id (List.replicate 5 ⟨0, 0, []⟩) 30 = ⟨0, 0, 0, 0⟩ :=
  ⟨by decide, c4_short_sequence id id (List.replicate 5 ⟨0, 0, []⟩) 30 (by decide)⟩

/-- C8 (amended): the top frame is the first index i in range(5, n-5) whose
rise from frame 0 strictly exceeds the absolute constant 0.08 (not 8% of the
observed range), whose velocity crosses from ≤ 0 to > 0, and whose smoothed
value is below the values 3 frames to each side; when no index of the range
qualifies, the top falls back to the first minimum of the first
int(0.6·n) smoothed values. -/
theorem c8_top_first_index (ys v : List ℚ) (n : ℕ) :
    (∀ i, 5 ≤ i → i + 5 < n → topCond ys v i →
      (∀ j, 5 ≤ j → j < i → ¬ topCond ys v j) →
      detectTopFrame ys v n = i) ∧
    ((∀ i, 5 ≤ i → i + 5 < n → ¬ topCond ys v i) →
      detectTopFrame ys v n =
        if 0 < pyTrunc ((n : ℚ) * (6/10)) then
          argminQ (ys.take (pyTrunc ((n : ℚ) * (6/10))).toNat)
        else 0) := by
  constructor
  · intro i h5 hin hc hmin
    have hfind : (List.range' 5 (n - 10)).find?
        (fun j => decide (topCond ys v j)) = some i := by
      apply find?_range'_eq_some _ i 5 (n - 10) h5 (by omega) (decide_eq_true hc)
      intro j hj hji
      exact decide_eq_false (hmin j hj hji)
    simp only [detectTopFrame, hfind]
    rw [if_neg (by omega)]
  · intro hnone
    have hfind : (List.range' 5 (n - 10)).find?
        (fun j => decide (topCond ys v j)) = none := by
      rw [List.find?_eq_none]
      intro j hj
      rw [List.mem_range'_1] at hj
      simp only [decide_eq_true_eq]
      exact hnone j hj.1 (by omega)
    simp only [detectTopFrame, hfind]
    simp

/-- C8 witness: on a concrete signal the first qualifying index is 5 and the
detector returns it. -/
theorem c8_top_first_index_witness :
    topCond c8sig (npGradient c8sig) 5 ∧
    detectTopFrame c8sig (npGradient c8sig) 12 = 5 :=
  ⟨by norm_num [topCond, c8sig, npGradient, List.range_succ],
   (c8_top_first_index _ _ 12).1 5 (by norm_num) (by norm_num)
     (by norm_num [topCond, c8sig, npGradient, List.range_succ])
     (fun j hj hji => by omega)⟩

/-- C8 counterexample: on the signal c8sig the observed range is 2.4, so the
8%-of-range reading of the threshold (0.192) rejects index 5 (rise 0.1) and
falls back to the global minimum of the first 60% (index 1), while the code
accepts index 5 because its threshold is the absolute 0.08. -/
theorem c8_top_counterexample :
    detectTopFrame c8sig (npGradient c8sig) 12 = 5 ∧
    specTopFrame c8sig (npGradient c8sig) 12 = 1 := by
  constructor
  · norm_num [detectTopFrame, topCond, c8sig, npGradient, List.range_succ,
      List.range', List.find?]
  · norm_num [specTopFrame, specTopCond, listMaxQ, listMinQ, c8sig, npGradient,
      List.range_succ, List.range', List.find?, pyTrunc, argminQ, List.take,
      max_def, min_def]

/-- C1 (amended, spec-modelled): for rotation matrices R (orthogonal local
rotations), calculate_offsets_from_pose recovers every non-root offset of
forward_kinematics exactly; the root entry, which forward_kinematics never
reads, comes back as 0 rather than O 0. -/
theorem c1_fk_offsets_roundtrip (R : ℕ → Mat3) (root : Vec3) (O : ℕ → Vec3)
    (horth : ∀ j, j < 24 → (R j).transpose * (R j) = 1) :
    (calculate_offsets_from_pose (forward_kinematics R root O) R).getD 0 0 = 0 ∧
    ∀ i, 1 ≤ i → i < 24 →
      (calculate_offsets_from_pose (forward_kinematics R root O) R).getD i 0 = O i := by
  have hdet : ∀ j, j < 24 → (globalRot R j).det ≠ 0 :=
    globalRot_det_ne R (fun j hj => det_ne_zero_of_orth _ (horth j hj))
  constructor
  · rw [calculate_offsets_from_pose, getD_map_range 24 _ 0 (by norm_num), if_pos rfl]
  · intro i h1 h24
    obtain ⟨k, rfl⟩ := Nat.exists_eq_add_of_lt (Nat.lt_of_lt_of_le Nat.zero_lt_one h1)
    rw [calculate_offsets_from_pose, getD_map_range 24 _ _ h24, if_neg (by omega)]
    have hp : parentIdx (0 + k + 1) < 0 + k + 1 := parentIdx_lt _ (by omega) h24
    rw [forward_kinematics, getD_map_range 24 _ _ h24,
        getD_map_range 24 _ _ (lt_trans hp h24)]
    have hgp : globalPos R root O (0 + k + 1) =
        globalPos R root O (parentIdx (0 + k + 1)) +
          (globalRot R (parentIdx (0 + k + 1))).mulVec (O (0 + k + 1)) := by
      rw [show 0 + k + 1 = k + 1 by omega]
      rw [globalPos]
    rw [hgp, add_sub_cancel_left, Matrix.mulVec_mulVec,
        inv3_mul _ (hdet _ (lt_trans hp h24)), Matrix.one_mulVec]

/-- C7: at root (0,0,0), joint (1,0,0), effector (1,1,0) the bone lengths
are L1 = L2 = 1; the target (0, 0, 1.2) is reachable (|L1-L2| = 0 ≤ 1.2 ≤ 2
= L1+L2, clear of both epsilon guards), yet solve_two_bone_ik returns a new
effector-joint distance below 1/4 instead of L2 = 1: the rotation axis (the
original bend-plane normal) is parallel to the out-of-plane target
direction, so the Rodrigues step never opens the law-of-cosines angle.  This
contradicts the docstring "preserving bone lengths" and spec 4.3. -/
theorem c7_ik_second_bone_not_preserved :
    norm3 (![(1 : ℝ), 0, 0] - ![0, 0, 0]) = 1 ∧
    norm3 (![(1 : ℝ), 1, 0] - ![1, 0, 0]) = 1 ∧
    norm3 (![(0 : ℝ), 0, 6/5] - ![0, 0, 0]) = 6/5 ∧
    norm3 ((solve_two_bone_ik ![0, 0, 0] ![1, 1, 0] ![0, 0, 6/5] ![1, 0, 0]).2 -
           (solve_two_bone_ik ![0, 0, 0] ![1, 1, 0] ![0, 0, 6/5] ![1, 0, 0]).1) < 1/4 := by
  have hs1 : Real.sqrt 1 = 1 := Real.sqrt_one
  have hs36 : Real.sqrt (36/25) = 6/5 := by
    rw [show (36/25 : ℝ) = (6/5) ^ 2 by norm_num, Real.sqrt_sq (by norm_num)]
  have hL1 : norm3 (![(1 : ℝ), 0, 0] - ![0, 0, 0]) = 1 := by
    rw [vsub3, norm3_lit]; norm_num
  have hL2 : norm3 (![(1 : ℝ), 1, 0] - ![1, 0, 0]) = 1 := by
    rw [vsub3, norm3_lit]; norm_num
  have hd : norm3 (![(0 : ℝ), 0, 6/5] - ![0, 0, 0]) = 6/5 := by
    rw [vsub3, norm3_lit]
    rw [show ((0 : ℝ) - 0) * (0 - 0) + (0 - 0) * (0 - 0) + (6/5 - 0) * (6/5 - 0)
          = 36/25 by norm_num, hs36]
  refine ⟨hL1, hL2, hd, ?_⟩
  have hcos : Real.cos (Real.arccos (3/5)) = 3/5 :=
    Real.cos_arccos (by norm_num) (by norm_num)
  have hsin : Real.sin (Real.arccos (3/5)) = 4/5 := by
    rw [Real.sin_arccos,
        show (1 : ℝ) - (3/5) ^ 2 = (4/5) ^ 2 by norm_num, Real.sqrt_sq (by norm_num)]
  have hq : ∀ x : ℝ, 0 ≤ x → x < 1/16 → Real.sqrt x < 1/4 := by
    intro x hx0 hx
    have h := Real.sqrt_lt_sqrt hx0 hx
    rwa [show (1/16 : ℝ) = (1/4) ^ 2 by norm_num, Real.sqrt_sq (by norm_num)] at h
  simp only [solve_two_bone_ik, hL1, hL2, hd]
  norm_num [norm3, dot3, cross3, Pi.sub_apply, Pi.add_apply, Pi.smul_apply,
    apply_ite, Matrix.cons_val_zero, Matrix.cons_val_one, Matrix.head_cons,
    hs1, hs36, hcos, hsin, max_def, min_def]
  rw [← Real.sqrt_div (by positivity)]
  apply hq _ (by positivity)
  norm_num

/-- C1 witness: the orthogonality hypothesis holds for the identity
rotations, and with constant unit offsets the round trip recovers the offset
of joint 5. -/
theorem c1_fk_offsets_roundtrip_witness :
    (∀ j, j < 24 → ((fun _ => (1 : Mat3)) j).transpose * ((fun _ => (1 : Mat3)) j) = 1) ∧
    (calculate_offsets_from_pose
        (forward_kinematics (fun _ => 1) 0 (fun _ => (fun _ => 1))) (fun _ => 1)).getD 5 0 =
      (fun _ => (1 : ℚ)) :=
  ⟨fun j _ => by rw [Matrix.transpose_one, one_mul],
   (c1_fk_offsets_roundtrip (fun _ => 1) 0 (fun _ => (fun _ => 1))
      (fun j _ => by rw [Matrix.transpose_one, one_mul])).2 5 (by norm_num) (by norm_num)⟩

/-- C1 counterexample: with identity rotations, root at the origin and every
offset the constant vector 1, the extracted root offset is 0 while O 0 is
the constant vector 1 — the round trip does not return O at the root index,
against the claim's "for every array O of 24 offset vectors ... returns O".
The forward pass never reads O 0, so no extraction could recover it. -/
theorem c1_fk_offsets_root_counterexample :
    (calculate_offsets_from_pose
        (forward_kinematics (fun _ => 1) 0 (fun _ => (fun _ => 1))) (fun _ => 1)).getD 0 0 ≠
      (fun _ => (1 : ℚ)) := by
  rw [calculate_offsets_from_pose, getD_map_range 24 _ 0 (by norm_num), if_pos rfl]
  intro h
  have h0 := congrFun h 0
  norm_num at h0

/-- C10 (amended): the hemisphere-continuity pass itself guarantees that every
pair of consecutive corrected quaternions has nonnegative dot product; the
original claim extends this to the output of the subsequent Gaussian filter,
which is refuted by c10_smoothing_counterexample. -/
theorem c10_continuity_pass (qs : List Smoothing.Vec4) (i : ℕ)
    (h : i + 1 < (flipPass qs).length) :
    0 ≤ dot4 ((flipPass qs).getD i 0) ((flipPass qs).getD (i + 1) 0) := by
  match qs with
  | [] => simp [flipPass] at h
  | q :: rest =>
    simp only [flipPass] at h ⊢
    exact Smoothing.flipStep_chain rest q i h

/-- Witness for c10_continuity_pass at the two-element sequence
[(1,0,0,0), (-1,0,0,0)], whose second element the pass flips. -/
theorem c10_continuity_pass_witness :
    0 + 1 < (flipPass [(![1, 0, 0, 0] : Smoothing.Vec4), ![-1, 0, 0, 0]]).length ∧
    0 ≤ dot4 ((flipPass [(![1, 0, 0, 0] : Smoothing.Vec4), ![-1, 0, 0, 0]]).getD 0 0)
      ((flipPass [(![1, 0, 0, 0] : Smoothing.Vec4), ![-1, 0, 0, 0]]).getD (0 + 1) 0) := by
  have h : 0 + 1 < (flipPass [(![1, 0, 0, 0] : Smoothing.Vec4), ![-1, 0, 0, 0]]).length := by
    simp [flipPass, flipStep]
  exact ⟨h, c10_continuity_pass _ 0 h⟩

set_option maxHeartbeats 2000000 in
/-- C10: counterexample to the original claim. c10quats is a sequence of four
unit quaternions whose consecutive dot products are all nonnegative (so the
continuity pass leaves it unchanged), yet after Gaussian smoothing with
sigma 2.0 and renormalisation the smoothed quaternions at indices 1 and 2
have strictly negative dot product: a sign flip survives smoothing. -/
theorem c10_smoothing_counterexample :
    dot4 (c10quats.getD 0 0) (c10quats.getD 0 0) = 1 ∧
    dot4 (c10quats.getD 1 0) (c10quats.getD 1 0) = 1 ∧
    dot4 (c10quats.getD 2 0) (c10quats.getD 2 0) = 1 ∧
    dot4 (c10quats.getD 3 0) (c10quats.getD 3 0) = 1 ∧
    0 ≤ dot4 (c10quats.getD 0 0) (c10quats.getD 1 0) ∧
    0 ≤ dot4 (c10quats.getD 1 0) (c10quats.getD 2 0) ∧
    0 ≤ dot4 (c10quats.getD 2 0) (c10quats.getD 3 0) ∧
    dot4 ((smooth_pose_quats c10quats).getD 1 0)
      ((smooth_pose_quats c10quats).getD 2 0) < 0 := by
  have hlen : c10quats.length = 4 := rfl
  have h01 : ¬ dot4 (![1, 0, 0, 0] : Smoothing.Vec4) ![5/13, -12/13, 0, 0] < 0 := by
    norm_num [dot4, Matrix.cons_val_zero, Matrix.cons_val_one, Matrix.cons_val_two,
      Matrix.cons_val_three, Matrix.head_cons, Matrix.tail_cons]
  have h12 : ¬ dot4 (![5/13, -12/13, 0, 0] : Smoothing.Vec4)
      ![-14155/15613, -6588/15613, 0, 0] < 0 := by
    norm_num [dot4, Matrix.cons_val_zero, Matrix.cons_val_one, Matrix.cons_val_two,
      Matrix.cons_val_three, Matrix.head_cons, Matrix.tail_cons]
  have h23 : ¬ dot4 (![-14155/15613, -6588/15613, 0, 0] : Smoothing.Vec4)
      ![-149831/202969, 136920/202969, 0, 0] < 0 := by
    norm_num [dot4, Matrix.cons_val_zero, Matrix.cons_val_one, Matrix.cons_val_two,
      Matrix.cons_val_three, Matrix.head_cons, Matrix.tail_cons]
  have hflip : flipPass c10quats = c10quats := by
    rw [c10quats]
    simp only [flipPass, flipStep, if_neg h01, if_neg h12, if_neg h23]
  have hx0 : (0 : ℝ) < Real.exp (-(1 : ℝ) / 8) := Real.exp_pos _
  have hlo : (10000 : ℝ) / 11332 < Real.exp (-(1 : ℝ) / 8) := Smoothing.exp_eighth_gt
  have hhi : Real.exp (-(1 : ℝ) / 8) < 10000 / 11331 := Smoothing.exp_eighth_lt
  have hb4l : (30321 / 50000 : ℝ) < Real.exp (-(1 : ℝ) / 8) ^ 4 :=
    lt_of_le_of_lt (by norm_num : (30321 / 50000 : ℝ) ≤ ((10000 : ℝ) / 11332) ^ 4)
      (pow_lt_pow_left₀ hlo (by norm_num) (by norm_num))
  have hb4u : Real.exp (-(1 : ℝ) / 8) ^ 4 < 121327 / 200000 :=
    lt_of_lt_of_le (pow_lt_pow_left₀ hhi (le_of_lt hx0) (by norm_num))
      (by norm_num : ((10000 : ℝ) / 11331) ^ 4 ≤ 121327 / 200000)
  have hb9l : (324519 / 1000000 : ℝ) < Real.exp (-(1 : ℝ) / 8) ^ 9 :=
    lt_of_le_of_lt (by norm_num : (324519 / 1000000 : ℝ) ≤ ((10000 : ℝ) / 11332) ^ 9)
      (pow_lt_pow_left₀ hlo (by norm_num) (by norm_num))
  have hb9u : Real.exp (-(1 : ℝ) / 8) ^ 9 < 162389 / 500000 :=
    lt_of_lt_of_le (pow_lt_pow_left₀ hhi (le_of_lt hx0) (by norm_num))
      (by norm_num : ((10000 : ℝ) / 11331) ^ 9 ≤ 162389 / 500000)
  have hb16l : (33809 / 250000 : ℝ) < Real.exp (-(1 : ℝ) / 8) ^ 16 :=
    lt_of_le_of_lt (by norm_num : (33809 / 250000 : ℝ) ≤ ((10000 : ℝ) / 11332) ^ 16)
      (pow_lt_pow_left₀ hlo (by norm_num) (by norm_num))
  have hb16u : Real.exp (-(1 : ℝ) / 8) ^ 16 < 33857 / 250000 :=
    lt_of_lt_of_le (pow_lt_pow_left₀ hhi (le_of_lt hx0) (by norm_num))
      (by norm_num : ((10000 : ℝ) / 11331) ^ 16 ≤ 33857 / 250000)
  have hb25l : (21943 / 500000 : ℝ) < Real.exp (-(1 : ℝ) / 8) ^ 25 :=
    lt_of_le_of_lt (by norm_num : (21943 / 500000 : ℝ) ≤ ((10000 : ℝ) / 11332) ^ 25)
      (pow_lt_pow_left₀ hlo (by norm_num) (by norm_num))
  have hb25u : Real.exp (-(1 : ℝ) / 8) ^ 25 < 2749 / 62500 :=
    lt_of_lt_of_le (pow_lt_pow_left₀ hhi (le_of_lt hx0) (by norm_num))
      (by norm_num : ((10000 : ℝ) / 11331) ^ 25 ≤ 2749 / 62500)
  have hb36l : (1109 / 100000 : ℝ) < Real.exp (-(1 : ℝ) / 8) ^ 36 :=
    lt_of_le_of_lt (by norm_num : (1109 / 100000 : ℝ) ≤ ((10000 : ℝ) / 11332) ^ 36)
      (pow_lt_pow_left₀ hlo (by norm_num) (by norm_num))
  have hb36u : Real.exp (-(1 : ℝ) / 8) ^ 36 < 11127 / 1000000 :=
    lt_of_lt_of_le (pow_lt_pow_left₀ hhi (le_of_lt hx0) (by norm_num))
      (by norm_num : ((10000 : ℝ) / 11331) ^ 36 ≤ 11127 / 1000000)
  have hb49l : (1091 / 500000 : ℝ) < Real.exp (-(1 : ℝ) / 8) ^ 49 :=
    lt_of_le_of_lt (by norm_num : (1091 / 500000 : ℝ) ≤ ((10000 : ℝ) / 11332) ^ 49)
      (pow_lt_pow_left₀ hlo (by norm_num) (by norm_num))
  have hb49u : Real.exp (-(1 : ℝ) / 8) ^ 49 < 2193 / 1000000 :=
    lt_of_lt_of_le (pow_lt_pow_left₀ hhi (le_of_lt hx0) (by norm_num))
      (by norm_num : ((10000 : ℝ) / 11331) ^ 49 ≤ 2193 / 1000000)
  have hb64l : (167 / 500000 : ℝ) < Real.exp (-(1 : ℝ) / 8) ^ 64 :=
    lt_of_le_of_lt (by norm_num : (167 / 500000 : ℝ) ≤ ((10000 : ℝ) / 11332) ^ 64)
      (pow_lt_pow_left₀ hlo (by norm_num) (by norm_num))
  have hb64u : Real.exp (-(1 : ℝ) / 8) ^ 64 < 337 / 1000000 :=
    lt_of_lt_of_le (pow_lt_pow_left₀ hhi (le_of_lt hx0) (by norm_num))
      (by norm_num : ((10000 : ℝ) / 11331) ^ 64 ≤ 337 / 1000000)
  have hu1 : gaussSmoothAt c10quats 1 = fun c : Fin 4 =>
      ((Real.exp (-(1 : ℝ) / 8) + Real.exp (-(1 : ℝ) / 8) ^ 4 + Real.exp (-(1 : ℝ) / 8) ^ 9 +
          Real.exp (-(1 : ℝ) / 8) ^ 16 + Real.exp (-(1 : ℝ) / 8) ^ 25 +
          Real.exp (-(1 : ℝ) / 8) ^ 36 + Real.exp (-(1 : ℝ) / 8) ^ 49 +
          Real.exp (-(1 : ℝ) / 8) ^ 64) * (![1, 0, 0, 0] : Smoothing.Vec4) c +
        (![5 / 13, -12 / 13, 0, 0] : Smoothing.Vec4) c +
        Real.exp (-(1 : ℝ) / 8) * (![-14155 / 15613, -6588 / 15613, 0, 0] : Smoothing.Vec4) c +
        (Real.exp (-(1 : ℝ) / 8) ^ 4 + Real.exp (-(1 : ℝ) / 8) ^ 9 +
          Real.exp (-(1 : ℝ) / 8) ^ 16 + Real.exp (-(1 : ℝ) / 8) ^ 25 +
          Real.exp (-(1 : ℝ) / 8) ^ 36 + Real.exp (-(1 : ℝ) / 8) ^ 49 +
          Real.exp (-(1 : ℝ) / 8) ^ 64) *
          (![-149831 / 202969, 136920 / 202969, 0, 0] : Smoothing.Vec4) c) / gaussSum := by
    funext c
    rw [gaussSmoothAt, Smoothing.kernelOffsets_eq, hlen]
    simp only [List.map_cons, List.map_nil, List.sum_cons, List.sum_nil,
      Smoothing.gaussWeight_eq_pow]
    norm_num [clampIdx, c10quats, List.getD, Int.toNat]
    ring
  have hu2 : gaussSmoothAt c10quats 2 = fun c : Fin 4 =>
      ((Real.exp (-(1 : ℝ) / 8) ^ 4 + Real.exp (-(1 : ℝ) / 8) ^ 9 +
          Real.exp (-(1 : ℝ) / 8) ^ 16 + Real.exp (-(1 : ℝ) / 8) ^ 25 +
          Real.exp (-(1 : ℝ) / 8) ^ 36 + Real.exp (-(1 : ℝ) / 8) ^ 49 +
          Real.exp (-(1 : ℝ) / 8) ^ 64) * (![1, 0, 0, 0] : Smoothing.Vec4) c +
        Real.exp (-(1 : ℝ) / 8) * (![5 / 13, -12 / 13, 0, 0] : Smoothing.Vec4) c +
        (![-14155 / 15613, -6588 / 15613, 0, 0] : Smoothing.Vec4) c +
        (Real.exp (-(1 : ℝ) / 8) + Real.exp (-(1 : ℝ) / 8) ^ 4 + Real.exp (-(1 : ℝ) / 8) ^ 9 +
          Real.exp (-(1 : ℝ) / 8) ^ 16 + Real.exp (-(1 : ℝ) / 8) ^ 25 +
          Real.exp (-(1 : ℝ) / 8) ^ 36 + Real.exp (-(1 : ℝ) / 8) ^ 49 +
          Real.exp (-(1 : ℝ) / 8) ^ 64) *
          (![-149831 / 202969, 136920 / 202969, 0, 0] : Smoothing.Vec4) c) / gaussSum := by
    funext c
    rw [gaussSmoothAt, Smoothing.kernelOffsets_eq, hlen]
    simp only [List.map_cons, List.map_nil, List.sum_cons, List.sum_nil,
      Smoothing.gaussWeight_eq_pow]
    norm_num [clampIdx, c10quats, List.getD, Int.toNat]
    ring
  have ha0 : 0 < gaussSmoothAt c10quats 1 0 := by
    rw [hu1]
    apply div_pos _ Smoothing.gaussSum_pos
    norm_num [Matrix.cons_val_zero, Matrix.cons_val_one, Matrix.cons_val_two,
      Matrix.cons_val_three, Matrix.head_cons, Matrix.tail_cons]
    nlinarith [hb4l, hb9l, hb16l, hb25l, hb36l, hb49l, hb64l, hb4u, hb9u, hb16u, hb25u,
      hb36u, hb49u, hb64u, hlo, hhi]
  have ha1 : gaussSmoothAt c10quats 1 1 < 0 := by
    rw [hu1]
    apply div_neg_of_neg_of_pos _ Smoothing.gaussSum_pos
    norm_num [Matrix.cons_val_zero, Matrix.cons_val_one, Matrix.cons_val_two,
      Matrix.cons_val_three, Matrix.head_cons, Matrix.tail_cons]
    nlinarith [hb4l, hb9l, hb16l, hb25l, hb36l, hb49l, hb64l, hb4u, hb9u, hb16u, hb25u,
      hb36u, hb49u, hb64u, hlo, hhi]
  have ha2 : gaussSmoothAt c10quats 1 2 = 0 := by
    rw [hu1]
    norm_num [Matrix.cons_val_zero, Matrix.cons_val_one, Matrix.cons_val_two,
      Matrix.cons_val_three, Matrix.head_cons, Matrix.tail_cons]
  have ha3 : gaussSmoothAt c10quats 1 3 = 0 := by
    rw [hu1]
    norm_num [Matrix.cons_val_zero, Matrix.cons_val_one, Matrix.cons_val_two,
      Matrix.cons_val_three, Matrix.head_cons, Matrix.tail_cons]
  have hb0 : gaussSmoothAt c10quats 2 0 < 0 := by
    rw [hu2]
    apply div_neg_of_neg_of_pos _ Smoothing.gaussSum_pos
    norm_num [Matrix.cons_val_zero, Matrix.cons_val_one, Matrix.cons_val_two,
      Matrix.cons_val_three, Matrix.head_cons, Matrix.tail_cons]
    nlinarith [hb4l, hb9l, hb16l, hb25l, hb36l, hb49l, hb64l, hb4u, hb9u, hb16u, hb25u,
      hb36u, hb49u, hb64u, hlo, hhi]
  have hb1 : 0 < gaussSmoothAt c10quats 2 1 := by
    rw [hu2]
    apply div_pos _ Smoothing.gaussSum_pos
    norm_num [Matrix.cons_val_zero, Matrix.cons_val_one, Matrix.cons_val_two,
      Matrix.cons_val_three, Matrix.head_cons, Matrix.tail_cons]
    nlinarith [hb4l, hb9l, hb16l, hb25l, hb36l, hb49l, hb64l, hb4u, hb9u, hb16u, hb25u,
      hb36u, hb49u, hb64u, hlo, hhi]
  have hb2 : gaussSmoothAt c10quats 2 2 = 0 := by
    rw [hu2]
    norm_num [Matrix.cons_val_zero, Matrix.cons_val_one, Matrix.cons_val_two,
      Matrix.cons_val_three, Matrix.head_cons, Matrix.tail_cons]
  have hb3 : gaussSmoothAt c10quats 2 3 = 0 := by
    rw [hu2]
    norm_num [Matrix.cons_val_zero, Matrix.cons_val_one, Matrix.cons_val_two,
      Matrix.cons_val_three, Matrix.head_cons, Matrix.tail_cons]
  have hdotneg : dot4 (gaussSmoothAt c10quats 1) (gaussSmoothAt c10quats 2) < 0 := by
    have hp1 : gaussSmoothAt c10quats 1 0 * gaussSmoothAt c10quats 2 0 < 0 :=
      mul_neg_of_pos_of_neg ha0 hb0
    have hp2 : gaussSmoothAt c10quats 1 1 * gaussSmoothAt c10quats 2 1 < 0 :=
      mul_neg_of_neg_of_pos ha1 hb1
    rw [dot4, ha2, ha3]
    simp only [zero_mul, add_zero]
    linarith
  have hself1 : 0 < dot4 (gaussSmoothAt c10quats 1) (gaussSmoothAt c10quats 1) := by
    rw [dot4]
    nlinarith [mul_pos_of_neg_of_neg ha1 ha1, mul_self_nonneg (gaussSmoothAt c10quats 1 0),
      mul_self_nonneg (gaussSmoothAt c10quats 1 2), mul_self_nonneg (gaussSmoothAt c10quats 1 3)]
  have hself2 : 0 < dot4 (gaussSmoothAt c10quats 2) (gaussSmoothAt c10quats 2) := by
    rw [dot4]
    nlinarith [mul_pos hb1 hb1, mul_self_nonneg (gaussSmoothAt c10quats 2 0),
      mul_self_nonneg (gaussSmoothAt c10quats 2 2), mul_self_nonneg (gaussSmoothAt c10quats 2 3)]
  have hsm : ∀ t : ℕ, t < 4 →
      (smooth_pose_quats c10quats).getD t 0 =
        (Real.sqrt (dot4 (gaussSmoothAt c10quats (t : ℤ)) (gaussSmoothAt c10quats (t : ℤ))))⁻¹ •
          gaussSmoothAt c10quats (t : ℤ) := by
    intro t ht
    have hl2 : t < (smoothQuats c10quats).length := by
      rw [smoothQuats, hlen]
      simpa using ht
    rw [smooth_pose_quats, normalizeQuats, Smoothing.getD_map_of_lt _ _ t 0 0 hl2,
      smoothQuats, hlen, hflip, Smoothing.getD_map_range_of_lt 4 _ 0 t ht]
  have hs1 := hsm 1 (by norm_num)
  have hs2 := hsm 2 (by norm_num)
  simp only [Nat.cast_one, Nat.cast_ofNat] at hs1 hs2
  refine ⟨?_, ?_, ?_, ?_, ?_, ?_, ?_, ?_⟩
  · norm_num [c10quats, List.getD, dot4, Matrix.cons_val_zero, Matrix.cons_val_one,
      Matrix.cons_val_two, Matrix.cons_val_three, Matrix.head_cons, Matrix.tail_cons]
  · norm_num [c10quats, List.getD, dot4, Matrix.cons_val_zero, Matrix.cons_val_one,
      Matrix.cons_val_two, Matrix.cons_val_three, Matrix.head_cons, Matrix.tail_cons]
  · norm_num [c10quats, List.getD, dot4, Matrix.cons_val_zero, Matrix.cons_val_one,
      Matrix.cons_val_two, Matrix.cons_val_three, Matrix.head_cons, Matrix.tail_cons]
  · norm_num [c10quats, List.getD, dot4, Matrix.cons_val_zero, Matrix.cons_val_one,
      Matrix.cons_val_two, Matrix.cons_val_three, Matrix.head_cons, Matrix.tail_cons]
  · norm_num [c10quats, List.getD, dot4, Matrix.cons_val_zero, Matrix.cons_val_one,
      Matrix.cons_val_two, Matrix.cons_val_three, Matrix.head_cons, Matrix.tail_cons]
  · norm_num [c10quats, List.getD, dot4, Matrix.cons_val_zero, Matrix.cons_val_one,
      Matrix.cons_val_two, Matrix.cons_val_three, Matrix.head_cons, Matrix.tail_cons]
  · norm_num [c10quats, List.getD, dot4, Matrix.cons_val_zero, Matrix.cons_val_one,
      Matrix.cons_val_two, Matrix.cons_val_three, Matrix.head_cons, Matrix.tail_cons]
  · rw [hs1, hs2, Smoothing.dot4_smul_smul]
    apply mul_neg_of_pos_of_neg _ hdotneg
    exact mul_pos (inv_pos.mpr (Real.sqrt_pos.mpr hself1))
      (inv_pos.mpr (Real.sqrt_pos.mpr hself2))

/-- C2: compute_metrics is NOT exception-free.  On a single pose whose
landmark list is empty, every joint lookup misses, chest and pelvis turn
resolve to None, and the x-factor line (metrics.py line 321) evaluates
abs(None), raising TypeError instead of resolving the metric to None. -/
theorem c2_metrics_type_error :
    computeMetrics (fun _ v => v) [⟨0, []⟩] ⟨0, 0, 0, 0⟩ 30 =
      .error PyErr.typeError := by
  simp [computeMetrics, posesToFrames, getFrameClamped, computeChestTurn, rotSep2d,
    getXY, pyAbs, List.isEmpty, List.getD, bind, Except.bind]

/-- C9 (amended): whenever compute_metrics returns a metrics table, its
handedness-dependent entries (swing_path_index, hand_height_at_top_index,
hand_width_at_top_index) are exactly the ones computed with the hardcoded
default "Right" (metrics.py line 348); the detected handedness is never
consulted. -/
theorem c9_handedness_fixed_right (fsav : ℕ → List ℝ → List ℝ) (poses : List MFramePose)
    (phases : SwingPhases) (fps : ℝ) (m : SwingMetrics)
    (h : computeMetrics fsav poses phases fps = .ok m) :
    ∃ spi hw,
      computeSwingPathIndex (posesToFrames poses) phases.top_frame
        phases.impact_frame "Right" = .ok spi ∧
      computeHandWidth (getFrameClamped (posesToFrames poses) phases.top_frame)
        "Right" false = .ok hw ∧
      m.swing_path_index = spi.map (fun v => pyRound v 3) ∧
      m.hand_height_at_top_index =
        (computeHandHeight (getFrameClamped (posesToFrames poses) phases.top_frame)
          "Right" false).map (fun v => pyRound v 3) ∧
      m.hand_width_at_top_index = hw.map (fun v => pyRound v 3) := by
  by_cases hp : poses.isEmpty
  · simp only [computeMetrics, hp, if_true] at h
    injection h with h
    subst h
    have hf : posesToFrames poses = [] := by
      cases poses with
      | nil => rfl
      | cons a l => simp [List.isEmpty] at hp
    refine ⟨none, none, ?_, ?_, rfl, ?_, rfl⟩
    · rw [hf]
      simp [computeSwingPathIndex]
    · rw [hf]
      rfl
    · rw [hf]
      rfl
  · simp only [computeMetrics, hp, if_false] at h
    obtain ⟨a1, ha1, h⟩ := except_bind_ok h
    obtain ⟨a2, ha2, h⟩ := except_bind_ok h
    obtain ⟨spi, hspi, h⟩ := except_bind_ok h
    obtain ⟨hw, hhw, h⟩ := except_bind_ok h
    injection h with h
    subst h
    exact ⟨spi, hw, hspi, hhw, rfl, rfl, rfl⟩

/-- Witness for c9_handedness_fixed_right at the empty pose list. -/
theorem c9_handedness_fixed_right_witness :
    computeMetrics (fun _ v => v) [] ⟨0, 0, 0, 0⟩ 30 = .ok emptyMetrics ∧
    ∃ spi hw,
      computeSwingPathIndex (posesToFrames []) (0 : ℤ) (0 : ℤ) "Right" = .ok spi ∧
      computeHandWidth (getFrameClamped (posesToFrames []) 0) "Right" false = .ok hw ∧
      emptyMetrics.swing_path_index = spi.map (fun v => pyRound v 3) ∧
      emptyMetrics.hand_height_at_top_index =
        (computeHandHeight (getFrameClamped (posesToFrames []) 0)
          "Right" false).map (fun v => pyRound v 3) ∧
      emptyMetrics.hand_width_at_top_index = hw.map (fun v => pyRound v 3) := by
  have hm : computeMetrics (fun _ v => v) [] ⟨0, 0, 0, 0⟩ 30 = .ok emptyMetrics := by
    simp [computeMetrics]
  exact ⟨hm, c9_handedness_fixed_right (fun _ v => v) [] ⟨0, 0, 0, 0⟩ 30 emptyMetrics hm⟩

/-- C9: counterexample to the original claim.  On c9poses the detector
returns "Left" (the mean wrist x moves from 1 at address to 0 at the top),
the swing-path index computed for a left-hander would be 0, yet
compute_metrics returns the right-handed value 5/4 because the handedness
passed to the metric is the hardcoded "Right". -/
theorem c9_handedness_counterexample :
    detect_handedness c9poses c9phases = .ok "Left" ∧
    computeSwingPathIndex (posesToFrames c9poses) c9phases.top_frame
      c9phases.impact_frame "Right" = .ok (some (5/4)) ∧
    computeSwingPathIndex (posesToFrames c9poses) c9phases.top_frame
      c9phases.impact_frame "Left" = .ok (some 0) ∧
    (∃ m, computeMetrics (fun _ v => v) c9poses c9phases 30 = .ok m ∧
      m.swing_path_index = some (5/4)) := by
  have hp0 : pyIndex c9poses (0 : ℤ) = .ok ⟨0, mkLms 1 1 0 0⟩ := rfl
  have hp1 : pyIndex c9poses (1 : ℤ) = .ok ⟨0, mkLms 0 0 0 (2/5)⟩ := rfl
  have ha15 : pyIndex (mkLms (1 : ℝ) 1 0 0) 15 = .ok ⟨1, 0, 0, 1⟩ := rfl
  have ha16 : pyIndex (mkLms (1 : ℝ) 1 0 0) 16 = .ok ⟨1, 0, 0, 1⟩ := rfl
  have ht15 : pyIndex (mkLms (0 : ℝ) 0 0 (2/5)) 15 = .ok ⟨0, 0, 0, 1⟩ := rfl
  have ht16 : pyIndex (mkLms (0 : ℝ) 0 0 (2/5)) 16 = .ok ⟨0, 0, 0, 1⟩ := rfl
  have hdet : detect_handedness c9poses c9phases = .ok "Left" := by
    simp only [detect_handedness, c9phases]
    rw [if_neg (by decide : ¬(c9poses.isEmpty = true))]
    simp only [hp0, hp1, except_ok_bind, ha15, ha16, ht15, ht16]
    rw [if_pos (by norm_num)]
  have htrunc : ∀ x : ℝ, 0 ≤ x → x < 1 → pyTruncR x = 0 := by
    intro x h0 h1
    rw [pyTruncR, if_neg (by linarith), Int.floor_eq_iff]
    push_cast
    constructor <;> linarith
  have hfr1 : pyIndex (posesToFrames c9poses) (1 : ℤ) = .ok ⟨mkLms 0 0 0 (2/5)⟩ := rfl
  have hfr3 : pyIndex (posesToFrames c9poses) (3 : ℤ) = .ok ⟨mkLms (1/2) 0 0 0⟩ := rfl
  have hg15t : getXYZ (⟨mkLms 0 0 0 (2/5)⟩ : Frame) 15 = some (0, 0, 0) := rfl
  have hg16t : getXYZ (⟨mkLms 0 0 0 (2/5)⟩ : Frame) 16 = some (0, 0, 0) := rfl
  have hg11t : getXYZ (⟨mkLms 0 0 0 (2/5)⟩ : Frame) 11 = some (0, 0, 0) := rfl
  have hg12t : getXYZ (⟨mkLms 0 0 0 (2/5)⟩ : Frame) 12 = some (2/5, 0, 0) := rfl
  have hg15tr : getXYZ (⟨mkLms (1/2) 0 0 0⟩ : Frame) 15 = some (1/2, 0, 0) := rfl
  have hg16tr : getXYZ (⟨mkLms (1/2) 0 0 0⟩ : Frame) 16 = some (0, 0, 0) := rfl
  have habs : |(0 : ℝ) - 2/5| = 2/5 := by
    rw [abs_sub_comm, abs_of_nonneg (by norm_num : (0:ℝ) ≤ 2/5 - 0)]
    norm_num
  have hspiR : computeSwingPathIndex (posesToFrames c9poses) 1 5 "Right" =
      .ok (some (5/4)) := by
    simp only [computeSwingPathIndex]
    rw [if_neg (by decide)]
    norm_num [hfr1, hfr3, except_ok_bind, htrunc, hg15t, hg11t, hg12t, hg15tr, habs]
    rw [show |(2:ℝ)/5| = 2/5 from abs_of_nonneg (by norm_num)]
    norm_num
    rw [if_neg (by decide : ¬("Right" = "Left"))]
    norm_num
  have hspiL : computeSwingPathIndex (posesToFrames c9poses) 1 5 "Left" =
      .ok (some 0) := by
    simp only [computeSwingPathIndex]
    rw [if_neg (by decide)]
    simp only [if_neg (by decide : ¬("Left" = "Right"))]
    norm_num [hfr1, hfr3, except_ok_bind, htrunc, hg16t, hg11t, hg12t, hg16tr, habs]
  have hcs : (computeChestTurn (getFrameClamped (posesToFrames c9poses) 0)
      (getFrameClamped (posesToFrames c9poses) 1) false).isSome = true := rfl
  have hps : (computePelvisTurn (getFrameClamped (posesToFrames c9poses) 0)
      (getFrameClamped (posesToFrames c9poses) 1) false).isSome = true := rfl
  obtain ⟨C, hC⟩ := Option.isSome_iff_exists.mp hcs
  obtain ⟨P, hP⟩ := Option.isSome_iff_exists.mp hps
  have hclamp1 : getFrameClamped (posesToFrames c9poses) 1 = ⟨mkLms 0 0 0 (2/5)⟩ := rfl
  have hxy15 : getXY (⟨mkLms 0 0 0 (2/5)⟩ : Frame) 15 = some (0, 0) := rfl
  have hxy11 : getXY (⟨mkLms 0 0 0 (2/5)⟩ : Frame) 11 = some (0, 0) := rfl
  have hxy12 : getXY (⟨mkLms 0 0 0 (2/5)⟩ : Frame) 12 = some (2/5, 0) := rfl
  have hsw : Real.sqrt (((0:ℝ) - 2/5)^2 + ((0:ℝ) - 0)^2) = 2/5 := by
    rw [show ((0:ℝ) - 2/5)^2 + ((0:ℝ) - 0)^2 = (2/5)^2 by norm_num,
      Real.sqrt_sq (by norm_num)]
  have hhw : ∃ v, computeHandWidth (⟨mkLms 0 0 0 (2/5)⟩ : Frame) "Right" false =
      .ok v := by
    have hred : computeHandWidth (⟨mkLms 0 0 0 (2/5)⟩ : Frame) "Right" false =
        if 1/100 < Real.sqrt (((0:ℝ) - 2/5)^2 + ((0:ℝ) - 0)^2) then
          .ok (some (Real.sqrt (((0:ℝ) - (0 + 2/5)/2)^2 + ((0:ℝ) - (0 + 0)/2)^2) /
            Real.sqrt (((0:ℝ) - 2/5)^2 + ((0:ℝ) - 0)^2)))
        else .error .nameError := rfl
    rw [hred, hsw, if_pos (by norm_num : (1:ℝ)/100 < 2/5)]
    exact ⟨_, rfl⟩
  obtain ⟨V, hV⟩ := hhw
  refine ⟨hdet, by simpa [c9phases] using hspiR, by simpa [c9phases] using hspiL, ?_⟩
  have hne : ¬(c9poses.isEmpty = true) := by decide
  simp only [computeMetrics, hne, if_false, c9phases]
  simp only [hC, hP, pyAbs_some, hspiR, hclamp1, hV, except_ok_bind]
  refine ⟨_, rfl, ?_⟩
  dsimp only
  simp only [Option.map_some']
  rw [pyRound_eq_self (5/4) 3 1250 (by norm_num)]

end GolfAnalyzer
